import Mathlib

/-
Verification development for the pitch-event statistics repository.

The repository folds CSV pitch-event rows into per-player aggregates.
This file embeds, in Lean, the aggregation passes that the checked
claims are about:

  * pitchingStatsConverter.py : calculate_pitching_stats (field parsing,
    zone classification, strike/ball/foul classification, fastball
    vertical-approach-angle collection, earned runs and outs) together
    with its derived statistics (innings pitched, ERA, strike and ball
    percentages, FBnVAA) and assign_wins_losses.
  * statsConverter.py : calculate_stats (batting aggregation).
  * playerStatsConverter.py : calculate_hitting_stats (batting part).
  * statsConverterRecursive.py : calculate_hitting_stats.

Numeric CSV cells are modelled by the inductive type Cell, classified by
how the Python conversions int(...) and float(...) treat the string.
Fields parsed with int(...) become Lean integers, fields parsed with the
safe_float helper become rationals; real numbers are used only for the
statistics (mean, sample standard deviation, median) behind FBnVAA.

Parts of the source that no checked claim mentions are omitted from the
embedding and are marked as such in the doc comments of the functions
that would contain them (per-pitch-type measurement lists, the
first-three-pitch tracker, the at-bat-efficiency tracker, FIP, and the
report emitters).
-/

/-- One CSV cell holding a (possibly missing or malformed) numeric field,
classified by how the Python conversions behave on the underlying string:
a blank (empty or whitespace-only) string, a string that int(...) accepts,
a string that float(...) accepts but int(...) rejects, or a string that
both reject. -/
inductive Cell where
  | blank : Cell
  | intStr (n : ℤ) : Cell
  | floatStr (q : ℚ) : Cell
  | malformed : Cell
deriving DecidableEq

/-- Python int(string): succeeds exactly on integer literals; raises
ValueError (modelled as none) on blank, non-numeric, or float-only
strings such as "3.5". -/
def pyInt : Cell → Option ℤ
  | .intStr n => some n
  | _ => none

/-- safe_float from pitchingStatsConverter.py lines 45-49: returns
float(value) when the stripped value is nonempty and parses, and 0.0 when
the value is blank or raises ValueError or AttributeError. It never
fails. -/
def safe_float : Cell → ℚ
  | .blank => 0
  | .intStr n => (n : ℚ)
  | .floatStr q => q
  | .malformed => 0

/-- A field read as int(row[k]) if k in row else 0: an absent column
yields 0, a present cell goes through Python int(...) and can fail. -/
def parseIntField : Option Cell → Option ℤ
  | none => some 0
  | some c => pyInt c

/-- A field read as safe_float(row[k]) if k in row else 0: an absent
column yields 0, a present cell is coerced by safe_float and never
fails. -/
def parseFloatField : Option Cell → ℚ
  | none => 0
  | some c => safe_float c

/-- The SpinRate field, read (pitchingStatsConverter.py lines 88-92) as
safe_float(row[k]) if k in row and row[k].strip() else 0: the extra
truthiness test sends blank cells to 0 before safe_float runs. -/
def parseSpinRate : Option Cell → ℚ
  | none => 0
  | some .blank => 0
  | some c => safe_float c

/-- A raw CSV row as calculate_pitching_stats reads it: the string-typed
columns are indexed directly (row[k]) and are modelled as plain strings;
the numeric columns are modelled as optional cells (none = column
absent). -/
structure RawRow where
  gameID : String := ""
  pitcher : String := ""
  batter : String := ""
  runsScored : Option Cell := none
  outsOnPlay : Option Cell := none
  korbb : String := ""
  pitcherTeam : String := ""
  batterTeam : String := ""
  pitchofPA : Option Cell := none
  pitchCall : String := ""
  strikes : Option Cell := none
  balls : Option Cell := none
  taggedHitType : String := ""
  playResult : String := ""
  plateLocSide : Option Cell := none
  plateLocHeight : Option Cell := none
  taggedPitchType : String := ""
  vertApprAngle : Option Cell := none
  relSpeed : Option Cell := none
  inducedVertBreak : Option Cell := none
  horzBreak : Option Cell := none
  spinRate : Option Cell := none
  relHeight : Option Cell := none
  extensionVal : Option Cell := none
deriving DecidableEq

/-- A fully parsed pitch-event row, with the values the loop body of
calculate_pitching_stats works with after the per-row conversions at
pitchingStatsConverter.py lines 66-94. -/
structure Row where
  gameID : String := ""
  pitcher : String := ""
  batter : String := ""
  runsScored : ℤ := 0
  outsOnPlay : ℤ := 0
  korbb : String := ""
  pitcherTeam : String := ""
  batterTeam : String := ""
  pitchofPA : ℤ := 0
  pitchCall : String := ""
  strikes : ℤ := 0
  balls : ℤ := 0
  taggedHitType : String := ""
  playResult : String := ""
  plateLocSide : ℚ := 0
  plateLocHeight : ℚ := 0
  taggedPitchType : String := ""
  vertApprAngle : ℚ := 0
  relSpeed : ℚ := 0
  inducedVertBreak : ℚ := 0
  horzBreak : ℚ := 0
  spinRate : ℚ := 0
  relHeight : ℚ := 0
  extensionVal : ℚ := 0
deriving DecidableEq

/-- The per-row field conversions of calculate_pitching_stats
(pitchingStatsConverter.py lines 66-94). The int-typed fields
(RunsScored, OutsOnPlay, PitchofPA, Strikes, Balls) use bare int(...)
guarded only by column presence, so a present blank or non-integer cell
raises ValueError (none); the float-typed fields all go through
safe_float and never fail. -/
def parseRow (raw : RawRow) : Option Row := do
  let runsScored ← parseIntField raw.runsScored
  let outsOnPlay ← parseIntField raw.outsOnPlay
  let pitchofPA ← parseIntField raw.pitchofPA
  let strikes ← parseIntField raw.strikes
  let balls ← parseIntField raw.balls
  pure
    { gameID := raw.gameID
      pitcher := raw.pitcher
      batter := raw.batter
      runsScored := runsScored
      outsOnPlay := outsOnPlay
      korbb := raw.korbb
      pitcherTeam := raw.pitcherTeam
      batterTeam := raw.batterTeam
      pitchofPA := pitchofPA
      pitchCall := raw.pitchCall
      strikes := strikes
      balls := balls
      taggedHitType := raw.taggedHitType
      playResult := raw.playResult
      plateLocSide := parseFloatField raw.plateLocSide
      plateLocHeight := parseFloatField raw.plateLocHeight
      taggedPitchType := raw.taggedPitchType
      vertApprAngle := parseFloatField raw.vertApprAngle
      relSpeed := parseFloatField raw.relSpeed
      inducedVertBreak := parseFloatField raw.inducedVertBreak
      horzBreak := parseFloatField raw.horzBreak
      spinRate := parseSpinRate raw.spinRate
      relHeight := parseFloatField raw.relHeight
      extensionVal := parseFloatField raw.extensionVal }

/-- Sequential parsing of the rows: the first row whose int-typed field
raises aborts the whole pass, as the uncaught ValueError would. -/
def parseRows : List RawRow → Option (List Row)
  | [] => some []
  | raw :: tl =>
    match parseRow raw with
    | none => none
    | some r =>
      match parseRows tl with
      | none => none
      | some rs => some (r :: rs)

namespace Pitching

/-- STRIKE_ZONE side_min (pitchingStatsConverter.py lines 16-21). -/
def zoneSideMin : ℚ := -0.7085

/-- STRIKE_ZONE side_max. -/
def zoneSideMax : ℚ := 0.7085

/-- STRIKE_ZONE height_min. -/
def zoneHeightMin : ℚ := 1.7

/-- STRIKE_ZONE height_max. -/
def zoneHeightMax : ℚ := 3.4

/-- STRIKE_ZONE_HEIGHT (line 27). -/
def STRIKE_ZONE_HEIGHT : ℚ := zoneHeightMax - zoneHeightMin

/-- UPPER_ZONE_MAX (line 28). -/
def UPPER_ZONE_MAX : ℚ := zoneHeightMax

/-- UPPER_ZONE_MIN (line 29). -/
def UPPER_ZONE_MIN : ℚ := zoneHeightMin + 2 * STRIKE_ZONE_HEIGHT / 3

/-- MID_ZONE_MAX (line 30). -/
def MID_ZONE_MAX : ℚ := UPPER_ZONE_MIN

/-- MID_ZONE_MIN (line 31). -/
def MID_ZONE_MIN : ℚ := zoneHeightMin + STRIKE_ZONE_HEIGHT / 3

/-- LOWER_ZONE_MAX (line 32). -/
def LOWER_ZONE_MAX : ℚ := MID_ZONE_MIN

/-- LOWER_ZONE_MIN (line 33). -/
def LOWER_ZONE_MIN : ℚ := zoneHeightMin

/-- The strike-zone rectangle test used throughout the source:
side_min less-or-equal side less-or-equal side_max and height_min
less-or-equal height less-or-equal height_max. -/
def inStrikeZone (side height : ℚ) : Bool :=
  decide (zoneSideMin ≤ side ∧ side ≤ zoneSideMax ∧
          zoneHeightMin ≤ height ∧ height ≤ zoneHeightMax)

/-- The fastball family used by the pitch-type bucketing. -/
def fastballTypes : List String := ["Fastball", "FourSeamFastBall", "TwoSeamFastBall"]

/-- Per-pitcher running totals. This keeps every counter a checked claim
mentions; the per-type measurement lists (velocity, break, spin, release
height, extension) and their averages, which no claim mentions, are
omitted, as are the first-three-pitch and at-bat-efficiency counters. -/
structure PitcherState where
  earnedRuns : ℤ := 0
  outsRecorded : ℤ := 0
  wins : ℕ := 0
  losses : ℕ := 0
  strikeouts : ℕ := 0
  walks : ℕ := 0
  totalBattersFaced : ℕ := 0
  firstPitchStrikes : ℕ := 0
  firstPitchBalls : ℕ := 0
  totalPitches : ℕ := 0
  strikes : ℕ := 0
  balls : ℕ := 0
  hitBatters : ℕ := 0
  foulsAfter2Strikes : ℕ := 0
  homeRuns : ℕ := 0
  swings : ℕ := 0
  whiffs : ℕ := 0
  calledStrikes : ℕ := 0
  izSwings : ℕ := 0
  izWhiffs : ℕ := 0
  izPitches : ℕ := 0
  ozSwings : ℕ := 0
  ozWhiffs : ℕ := 0
  ozPitches : ℕ := 0
  fbVertApprAngles : List ℚ := []
  upperZonePitches : ℕ := 0
  midZonePitches : ℕ := 0
  lowerZonePitches : ℕ := 0
  fbUpperZoneAngles : List ℚ := []
  fbMidZoneAngles : List ℚ := []
  fbLowerZoneAngles : List ℚ := []
  fastballs : ℕ := 0
  fastballsIZ : ℕ := 0
  cutters : ℕ := 0
  sinkers : ℕ := 0
  sliders : ℕ := 0
deriving DecidableEq

/-- Whole-pass state: the pitchers map (defaultdict of zeroed records),
the team-runs tally, the pitcher-team map (both insertion-ordered
dictionaries, modelled as association lists), and the current-batter
tracker (defaultdict(str)). -/
structure PassState where
  pitchers : String → PitcherState
  teamRuns : List (String × ℤ)
  pitcherTeams : List (String × String)
  currentBatter : String → String

/-- team_runs[batter_team] += runs_scored on a defaultdict(int):
update in place when the key exists, append a fresh entry otherwise. -/
def addRuns : List (String × ℤ) → String → ℤ → List (String × ℤ)
  | [], k, d => [(k, d)]
  | (k2, v) :: tl, k, d =>
    if k2 = k then (k2, v + d) :: tl else (k2, v) :: addRuns tl k d

/-- pitcher_teams[pitcher_name] = pitcher_team on a dict: overwrite in
place when the key exists, append otherwise. -/
def setTeam : List (String × String) → String → String → List (String × String)
  | [], k, v => [(k, v)]
  | (k2, v2) :: tl, k, v =>
    if k2 = k then (k2, v) :: tl else (k2, v2) :: setTeam tl k v

/-- Line 238: total pitches thrown. -/
def trackTotalPitches (st : PitcherState) : PitcherState :=
  { st with totalPitches := st.totalPitches + 1 }

/-- Lines 240-262: the out-of-zone test, the in-zone test, and the
upper/middle/lower band subdivision with the fastball band angle
lists. -/
def trackZone (r : Row) (st : PitcherState) : PitcherState :=
  let st :=
    if ¬ inStrikeZone r.plateLocSide r.plateLocHeight then
      { st with ozPitches := st.ozPitches + 1 }
    else st
  if inStrikeZone r.plateLocSide r.plateLocHeight then
    let st := { st with izPitches := st.izPitches + 1 }
    if UPPER_ZONE_MIN ≤ r.plateLocHeight ∧ r.plateLocHeight ≤ UPPER_ZONE_MAX then
      let st := { st with upperZonePitches := st.upperZonePitches + 1 }
      if r.taggedPitchType ∈ fastballTypes then
        { st with fbUpperZoneAngles := st.fbUpperZoneAngles ++ [r.vertApprAngle] }
      else st
    else if MID_ZONE_MIN ≤ r.plateLocHeight ∧ r.plateLocHeight ≤ MID_ZONE_MAX then
      let st := { st with midZonePitches := st.midZonePitches + 1 }
      if r.taggedPitchType ∈ fastballTypes then
        { st with fbMidZoneAngles := st.fbMidZoneAngles ++ [r.vertApprAngle] }
      else st
    else if LOWER_ZONE_MIN ≤ r.plateLocHeight ∧ r.plateLocHeight ≤ LOWER_ZONE_MAX then
      let st := { st with lowerZonePitches := st.lowerZonePitches + 1 }
      if r.taggedPitchType ∈ fastballTypes then
        { st with fbLowerZoneAngles := st.fbLowerZoneAngles ++ [r.vertApprAngle] }
      else st
    else st
  else st

/-- Lines 264-375: pitch-type buckets. Counts, the fastball vertical
approach angle list, and the fastball in-zone count are kept; the
velocity, break, spin, release-height and extension lists, and the
cutter/sinker/slider in-zone counts, feed only outputs no claim
mentions and are omitted. -/
def trackPitchTypes (r : Row) (st : PitcherState) : PitcherState :=
  if r.taggedPitchType ∈ fastballTypes then
    let st := { st with fastballs := st.fastballs + 1,
                        fbVertApprAngles := st.fbVertApprAngles ++ [r.vertApprAngle] }
    if inStrikeZone r.plateLocSide r.plateLocHeight then
      { st with fastballsIZ := st.fastballsIZ + 1 }
    else st
  else if r.taggedPitchType = "Cutter" then
    { st with cutters := st.cutters + 1 }
  else if r.taggedPitchType = "Sinker" then
    { st with sinkers := st.sinkers + 1 }
  else if r.taggedPitchType = "Slider" then
    { st with sliders := st.sliders + 1 }
  else st

/-- Lines 378-381: earned runs accumulate runs scored except on plays
whose result is Error. -/
def trackEarnedRuns (r : Row) (st : PitcherState) : PitcherState :=
  if r.playResult ≠ "Error" then
    { st with earnedRuns := st.earnedRuns + r.runsScored }
  else st

/-- Line 384: outs recorded accumulate OutsOnPlay. -/
def trackOutsOnPlay (r : Row) (st : PitcherState) : PitcherState :=
  { st with outsRecorded := st.outsRecorded + r.outsOnPlay }

/-- Lines 386-391: a strikeout adds one recorded out and one strikeout,
a walk adds one walk. -/
def trackKorBB (r : Row) (st : PitcherState) : PitcherState :=
  if r.korbb = "Strikeout" then
    { st with outsRecorded := st.outsRecorded + 1,
              strikeouts := st.strikeouts + 1 }
  else if r.korbb = "Walk" then
    { st with walks := st.walks + 1 }
  else st

/-- Lines 398-410: first-pitch strikes and first-pitch balls. -/
def trackFirstPitch (r : Row) (st : PitcherState) : PitcherState :=
  let st :=
    if r.pitchofPA = 1 ∧
        r.pitchCall ∈ ["StrikeCalled", "StrikeSwinging", "FoulBall", "InPlay"] then
      { st with firstPitchStrikes := st.firstPitchStrikes + 1 }
    else st
  if r.pitchofPA = 1 ∧
      r.pitchCall ∈ ["BallCalled", "BallinDirt", "BallIntentional", "HitByPitch"] then
    { st with firstPitchBalls := st.firstPitchBalls + 1 }
  else st

/-- Lines 412-423: strikes, balls, fouls after two strikes, and hit
batters. A foul ball counts as a strike when there are fewer than two
strikes, or exactly two strikes on a bunt attempt; with two strikes and
no bunt it instead counts as a foul after two strikes. -/
def trackStrikesBalls (r : Row) (st : PitcherState) : PitcherState :=
  if r.pitchCall ∈ ["StrikeCalled", "StrikeSwinging", "InPlay"] then
    { st with strikes := st.strikes + 1 }
  else if r.pitchCall = "FoulBall" then
    if r.strikes < 2 ∨ (r.strikes = 2 ∧ r.taggedHitType = "Bunt") then
      { st with strikes := st.strikes + 1 }
    else if r.strikes = 2 ∧ r.taggedHitType ≠ "Bunt" then
      { st with foulsAfter2Strikes := st.foulsAfter2Strikes + 1 }
    else st
  else if r.pitchCall ∈ ["BallCalled", "BallinDirt", "BallIntentional"] then
    { st with balls := st.balls + 1 }
  else if r.pitchCall = "HitByPitch" then
    { st with hitBatters := st.hitBatters + 1 }
  else st

/-- Lines 393-396 (first half): total batters faced increments when the
tracked current batter for this pitcher differs from the row batter. -/
def trackTBF (newBatter : Bool) (st : PitcherState) : PitcherState :=
  if newBatter then
    { st with totalBattersFaced := st.totalBattersFaced + 1 }
  else st

/-- Lines 425-427: home runs. -/
def trackHomeRuns (r : Row) (st : PitcherState) : PitcherState :=
  if r.playResult = "HomeRun" then
    { st with homeRuns := st.homeRuns + 1 }
  else st

/-- Lines 429-447: swings and whiffs with their in-zone and out-of-zone
splits. -/
def trackSwings (r : Row) (st : PitcherState) : PitcherState :=
  let st :=
    if r.pitchCall ∈ ["StrikeSwinging", "InPlay", "FoulBall"] then
      let st := { st with swings := st.swings + 1 }
      if inStrikeZone r.plateLocSide r.plateLocHeight then
        { st with izSwings := st.izSwings + 1 }
      else
        { st with ozSwings := st.ozSwings + 1 }
    else st
  if r.pitchCall = "StrikeSwinging" then
    let st := { st with whiffs := st.whiffs + 1 }
    if inStrikeZone r.plateLocSide r.plateLocHeight then
      { st with izWhiffs := st.izWhiffs + 1 }
    else
      { st with ozWhiffs := st.ozWhiffs + 1 }
  else st

/-- Lines 450-452: called strikes. -/
def trackCalledStrikes (r : Row) (st : PitcherState) : PitcherState :=
  if r.pitchCall = "StrikeCalled" then
    { st with calledStrikes := st.calledStrikes + 1 }
  else st

/-- One iteration of the loop of calculate_pitching_stats, in source
order. The first-three-pitch tracking (lines 454-471) and the
at-bat-efficiency tracking (lines 478-484), which touch only counters
no claim mentions, are omitted. -/
def step (s : PassState) (r : Row) : PassState :=
  let st := s.pitchers r.pitcher
  let st := trackTotalPitches st
  let st := trackZone r st
  let st := trackPitchTypes r st
  let st := trackEarnedRuns r st
  let st := trackOutsOnPlay r st
  let st := trackKorBB r st
  -- lines 393-396: total batters faced via the current-batter tracker
  let newBatter : Bool := decide (s.currentBatter r.pitcher ≠ r.batter)
  let st := trackTBF newBatter st
  let cb :=
    if newBatter then Function.update s.currentBatter r.pitcher r.batter
    else s.currentBatter
  let st := trackFirstPitch r st
  let st := trackStrikesBalls r st
  let st := trackHomeRuns r st
  let st := trackSwings r st
  let st := trackCalledStrikes r st
  { pitchers := Function.update s.pitchers r.pitcher st
    teamRuns := addRuns s.teamRuns r.batterTeam r.runsScored
    pitcherTeams := setTeam s.pitcherTeams r.pitcher r.pitcherTeam
    currentBatter := cb }

/-- The empty pass state: all dictionaries empty, every pitcher record
at its zeroed defaults. -/
def initState : PassState :=
  { pitchers := fun _ => {}
    teamRuns := []
    pitcherTeams := []
    currentBatter := fun _ => "" }

/-- The main loop of calculate_pitching_stats over already-parsed
rows. -/
def processRows (rows : List Row) : PassState :=
  rows.foldl step initState

/-- calculate_pitching_stats with the per-row field conversions made
explicit: parse every row (an uncaught ValueError anywhere aborts the
pass, yielding none), then run the aggregation loop. -/
def calculate_pitching_stats_checked (raws : List RawRow) : Option PassState :=
  (parseRows raws).map processRows

/-- Line 490: innings pitched = outs recorded / 3. -/
def inningsPitched (st : PitcherState) : ℚ :=
  (st.outsRecorded : ℚ) / 3

/-- Line 492: ERA = 9 * earned runs / innings pitched when innings
pitched is positive, else 0. -/
def eraOf (st : PitcherState) : ℚ :=
  if inningsPitched st > 0 then 9 * (st.earnedRuns : ℚ) / inningsPitched st
  else 0

/-- Line 892: strike percentage = strikes / total pitches * 100, 0 when
no pitches. -/
def strikePercent (st : PitcherState) : ℚ :=
  if 0 < st.totalPitches then (st.strikes : ℚ) / (st.totalPitches : ℚ) * 100
  else 0

/-- Line 893: ball percentage = balls / total pitches * 100, 0 when no
pitches. -/
def ballPercent (st : PitcherState) : ℚ :=
  if 0 < st.totalPitches then (st.balls : ℚ) / (st.totalPitches : ℚ) * 100
  else 0

/-- Dictionary lookup team_runs[k] on a defaultdict(int): the stored
value when the key is present, 0 otherwise. -/
def lookupRuns : List (String × ℤ) → String → ℤ
  | [], _ => 0
  | (k2, v) :: tl, k => if k2 = k then v else lookupRuns tl k

/-- Dictionary lookup on pitcher_teams: first stored value for the
key. -/
def assocLookup : List (String × String) → String → Option String
  | [], _ => none
  | (p, t) :: tl, q => if p = q then some t else assocLookup tl q

/-- The body of the pitcher loop of assign_wins_losses (lines 838-842):
+1 win when the pitcher team is the winning team, +1 loss when it is the
losing team. -/
def applyWL (winning losing : String) (m : String → PitcherState)
    (pt : String × String) : String → PitcherState :=
  if pt.2 = winning then
    Function.update m pt.1 { m pt.1 with wins := (m pt.1).wins + 1 }
  else if pt.2 = losing then
    Function.update m pt.1 { m pt.1 with losses := (m pt.1).losses + 1 }
  else m

/-- assign_wins_losses (pitchingStatsConverter.py lines 818-842,
identical in PitchingProcessRecursive.py lines 392-416): only a tally
with exactly two teams assigns anything; the AUB_TIG/AUB_PRC practice
pairing and ties assign nothing; otherwise every pitcher on the
higher-scoring team gets a win and every pitcher on the lower-scoring
team a loss. The Python version mutates the pitchers dict; this version
returns the updated map. -/
def assign_wins_losses (pitchers : String → PitcherState)
    (teamRuns : List (String × ℤ))
    (pitcherTeams : List (String × String)) : String → PitcherState :=
  match teamRuns with
  | [(team1, v1), (team2, v2)] =>
    let runs1 := lookupRuns [(team1, v1), (team2, v2)] team1
    let runs2 := lookupRuns [(team1, v1), (team2, v2)] team2
    if ({team1, team2} : Finset String) = {"AUB_TIG", "AUB_PRC"} then pitchers
    else if runs1 > runs2 then
      pitcherTeams.foldl (fun m pt => applyWL team1 team2 m pt) pitchers
    else if runs2 > runs1 then
      pitcherTeams.foldl (fun m pt => applyWL team2 team1 m pt) pitchers
    else pitchers
  | _ => pitchers

/-- Python statistics.mean: sum divided by length. -/
noncomputable def pymean (l : List ℝ) : ℝ :=
  l.sum / l.length

/-- Python statistics.stdev: the sample standard deviation, the square
root of the sum of squared deviations from the mean divided by
(length - 1). The caller guards length at least 2. -/
noncomputable def pystdev (l : List ℝ) : ℝ :=
  Real.sqrt ((l.map fun x => (x - pymean l) ^ 2).sum / ((l.length : ℝ) - 1))

/-- Python statistics.median: sort, then take the middle element for an
odd length or the average of the two middle elements for an even
length. -/
noncomputable def pymedian (l : List ℝ) : ℝ :=
  let s := l.insertionSort (· ≤ ·)
  if s.length % 2 = 1 then s.getD (s.length / 2) 0
  else (s.getD (s.length / 2 - 1) 0 + s.getD (s.length / 2) 0) / 2

/-- Lines 506-523: fastball normalized vertical approach angle. With at
least two recorded fastball angles, z-score each angle against the
pitcher fastball mean and sample standard deviation and take the median
of the z-scores; otherwise 0. -/
noncomputable def fbnVAA (st : PitcherState) : ℝ :=
  let angles : List ℝ := st.fbVertApprAngles.map fun q : ℚ => (q : ℝ)
  if 2 ≤ angles.length then
    let m := pymean angles
    let sd := pystdev angles
    pymedian (angles.map fun a => (a - m) / sd)
  else 0

/-- Specification-level extraction of the fastball vertical approach
angles a pitcher records: the VertApprAngle of every row thrown by that
pitcher whose tagged type is in the fastball family, in input order. -/
def fbAnglesSpec (rows : List Row) (p : String) : List ℚ :=
  rows.filterMap fun r =>
    if r.pitcher = p ∧ r.taggedPitchType ∈ fastballTypes then some r.vertApprAngle
    else none

/-- Specification-level outs a pitcher records: OutsOnPlay summed over
the rows of that pitcher, plus one per strikeout row. -/
def outsSpec (rows : List Row) (p : String) : ℤ :=
  (rows.map fun r =>
    if r.pitcher = p then
      r.outsOnPlay + (if r.korbb = "Strikeout" then 1 else 0)
    else 0).sum

/-- Specification-level earned runs: RunsScored summed over the rows of
that pitcher whose play result is not Error. -/
def erSpec (rows : List Row) (p : String) : ℤ :=
  (rows.map fun r =>
    if r.pitcher = p ∧ r.playResult ≠ "Error" then r.runsScored else 0).sum

end Pitching

namespace Batting

/-- A batting-schema row as the batting aggregations read it, with the
numeric conversions already performed. statsConverter.py parses
RunsScored and OutsOnPlay with bare int(...); statsConverterRecursive.py
guards them with isdigit (so its parsed values are in fact
non-negative); the parsed-value loop bodies are what the claims are
about, so the three variants are embedded over this shared parsed
type. -/
structure BatRow where
  gameID : String := ""
  batter : String := ""
  playResult : String := ""
  taggedHitType : String := ""
  korbb : String := ""
  pitchCall : String := ""
  runsScored : ℤ := 0
  outsOnPlay : ℤ := 0
  inning : String := ""
  inningHalf : String := ""
  paOfInning : String := ""
  exitSpeed : ℚ := 0
  launchAngle : ℚ := 0
deriving DecidableEq

/-- Per-batter running totals shared by the three batting variants. -/
structure BatterStats where
  exitSpeeds : List ℚ := []
  angles : List ℚ := []
  pa : ℕ := 0
  oneB : ℕ := 0
  twoB : ℕ := 0
  threeB : ℕ := 0
  hr : ℕ := 0
  hits : ℕ := 0
  tb : ℕ := 0
  k : ℕ := 0
  bb : ℕ := 0
  hbp : ℕ := 0
  sh : ℕ := 0
  sf : ℕ := 0
  ab : ℕ := 0
  rbi : ℤ := 0
  gdp : ℕ := 0
deriving DecidableEq

/-- Pass state for a batting aggregation: the batters map (lazily
initialized dict of zeroed records) and the set of plate-appearance
identifiers already seen, parameterized by the identifier type since the
variants use different keys. -/
structure BatState (κ : Type) where
  players : String → BatterStats
  pas : List κ

/-- Exit-speed and launch-angle collection (statsConverter.py lines
91-95 and the identical blocks of the other variants): nonzero values
are appended for later averaging. -/
def trackExit (r : BatRow) (st : BatterStats) : BatterStats :=
  let st :=
    if r.exitSpeed ≠ 0 then { st with exitSpeeds := st.exitSpeeds ++ [r.exitSpeed] }
    else st
  if r.launchAngle ≠ 0 then { st with angles := st.angles ++ [r.launchAngle] }
  else st

/-- The Single/Double/Triple/HomeRun arms of the play-result chain
(statsConverter.py lines 109-124): each adds the hit-type counter, a
hit, and 1/2/3/4 total bases. -/
def trackHits (r : BatRow) (st : BatterStats) : BatterStats :=
  if r.playResult = "Single" then
    { st with oneB := st.oneB + 1, hits := st.hits + 1, tb := st.tb + 1 }
  else if r.playResult = "Double" then
    { st with twoB := st.twoB + 1, hits := st.hits + 1, tb := st.tb + 2 }
  else if r.playResult = "Triple" then
    { st with threeB := st.threeB + 1, hits := st.hits + 1, tb := st.tb + 3 }
  else if r.playResult = "HomeRun" then
    { st with hr := st.hr + 1, hits := st.hits + 1, tb := st.tb + 4 }
  else st

/-- The Sacrifice arm as written in statsConverter.py lines 125-129 and
playerStatsConverter.py lines 1121-1125: a bunt is a sacrifice hit, a
fly ball or popup a sacrifice fly, any other tagged hit type counts as
neither. -/
def trackSacByType (r : BatRow) (st : BatterStats) : BatterStats :=
  if r.playResult = "Sacrifice" then
    if r.taggedHitType = "Bunt" then { st with sh := st.sh + 1 }
    else if r.taggedHitType ∈ ["FlyBall", "Popup"] then { st with sf := st.sf + 1 }
    else st
  else st

/-- The Sacrifice handling of statsConverterRecursive.py lines 321-322,
which bumps the key chosen by ("SH" if hit_type == "Bunt" else "SF"):
every non-bunt sacrifice counts as a sacrifice fly. -/
def trackSacRecursive (r : BatRow) (st : BatterStats) : BatterStats :=
  if r.playResult = "Sacrifice" then
    if r.taggedHitType = "Bunt" then { st with sh := st.sh + 1 }
    else { st with sf := st.sf + 1 }
  else st

/-- statsConverter.py lines 131-135: a strikeout adds K and AB, a walk
adds BB only. -/
def trackKorBBBat (r : BatRow) (st : BatterStats) : BatterStats :=
  if r.korbb = "Strikeout" then
    { st with k := st.k + 1, ab := st.ab + 1 }
  else if r.korbb = "Walk" then
    { st with bb := st.bb + 1 }
  else st

/-- statsConverter.py lines 137-138: hit-by-pitch counter. -/
def trackHBP (r : BatRow) (st : BatterStats) : BatterStats :=
  if r.pitchCall = "HitByPitch" then { st with hbp := st.hbp + 1 }
  else st

/-- statsConverter.py lines 140-145: AB increments on a non-sacrifice
hit, error, fielders choice, or out. -/
def trackAB (r : BatRow) (st : BatterStats) : BatterStats :=
  if r.playResult ∈ ["Single", "Double", "Triple", "HomeRun", "Error",
      "FieldersChoice", "Out"] ∧ r.playResult ≠ "Sacrifice" then
    { st with ab := st.ab + 1 }
  else st

/-- The RBI guards, statsConverter.py lines 147-156 (identical in
playerStatsConverter.py lines 1143-1152 and statsConverterRecursive.py
lines 336-343): the general guard adds RunsScored unless the play is an
Error or FieldersChoice or a ground-ball double-play out, its elif arm
adds RunsScored for a Sacrifice, and two further independent ifs add
RunsScored again for a positive-run walk and for a positive-run
hit-by-pitch. -/
def trackRBI (r : BatRow) (st : BatterStats) : BatterStats :=
  let st :=
    if r.playResult ∉ ["Error", "FieldersChoice"] ∧
        ¬(r.playResult = "Out" ∧ r.taggedHitType = "GroundBall" ∧ r.outsOnPlay = 2) then
      { st with rbi := st.rbi + r.runsScored }
    else if r.playResult = "Sacrifice" then
      { st with rbi := st.rbi + r.runsScored }
    else st
  let st :=
    if r.korbb = "Walk" ∧ 0 < r.runsScored then
      { st with rbi := st.rbi + r.runsScored }
    else st
  if r.pitchCall = "HitByPitch" ∧ 0 < r.runsScored then
    { st with rbi := st.rbi + r.runsScored }
  else st

/-- statsConverter.py lines 158-160: ground into double play. -/
def trackGDP (r : BatRow) (st : BatterStats) : BatterStats :=
  if r.playResult = "Out" ∧ r.taggedHitType = "GroundBall" ∧ r.outsOnPlay = 2 then
    { st with gdp := st.gdp + 1 }
  else st

/-- Plate-appearance key of statsConverter.py line 101:
(batter, inning, inning half, PA of inning) - note no game id. -/
def keySC (r : BatRow) : String × String × String × String :=
  (r.batter, r.inning, r.inningHalf, r.paOfInning)

/-- Plate-appearance key of playerStatsConverter.py line 1097 and
statsConverterRecursive.py line 298:
(game id, batter, inning, inning half, PA of inning). -/
def keyG (r : BatRow) : String × String × String × String × String :=
  (r.gameID, r.batter, r.inning, r.inningHalf, r.paOfInning)

/-- One iteration of the loop of statsConverter.py calculate_stats
(batting counters; the in-loop recomputation of the exit-velocity and
launch-angle averages at lines 162-171 only rewrites two derived output
fields no claim mentions and is omitted). -/
def stepSC (s : BatState (String × String × String × String)) (r : BatRow) :
    BatState (String × String × String × String) :=
  let st := s.players r.batter
  let st := trackExit r st
  let key := keySC r
  let pas := if key ∈ s.pas then s.pas else s.pas ++ [key]
  let st := if key ∈ s.pas then st else { st with pa := st.pa + 1 }
  let st := trackHits r st
  let st := trackSacByType r st
  let st := trackKorBBBat r st
  let st := trackHBP r st
  let st := trackAB r st
  let st := trackRBI r st
  let st := trackGDP r st
  { players := Function.update s.players r.batter st, pas := pas }

/-- One iteration of the batting part of playerStatsConverter.py
calculate_hitting_stats (lines 1088-1156): identical to stepSC except
that the plate-appearance key includes the game id. -/
def stepPSC (s : BatState (String × String × String × String × String)) (r : BatRow) :
    BatState (String × String × String × String × String) :=
  let st := s.players r.batter
  let st := trackExit r st
  let key := keyG r
  let pas := if key ∈ s.pas then s.pas else s.pas ++ [key]
  let st := if key ∈ s.pas then st else { st with pa := st.pa + 1 }
  let st := trackHits r st
  let st := trackSacByType r st
  let st := trackKorBBBat r st
  let st := trackHBP r st
  let st := trackAB r st
  let st := trackRBI r st
  let st := trackGDP r st
  { players := Function.update s.players r.batter st, pas := pas }

/-- One iteration of the loop of statsConverterRecursive.py
calculate_hitting_stats (lines 260-346): game-id-inclusive
plate-appearance key, hit chain, the SH-or-else-SF sacrifice handling,
and the same strikeout/walk, HBP, AB, RBI and GDP blocks. -/
def stepSCR (s : BatState (String × String × String × String × String)) (r : BatRow) :
    BatState (String × String × String × String × String) :=
  let st := s.players r.batter
  let st := trackExit r st
  let key := keyG r
  let pas := if key ∈ s.pas then s.pas else s.pas ++ [key]
  let st := if key ∈ s.pas then st else { st with pa := st.pa + 1 }
  let st := trackHits r st
  let st := trackSacRecursive r st
  let st := trackKorBBBat r st
  let st := trackHBP r st
  let st := trackAB r st
  let st := trackRBI r st
  let st := trackGDP r st
  { players := Function.update s.players r.batter st, pas := pas }

/-- Empty batting pass state. -/
def initBat {κ : Type} : BatState κ :=
  { players := fun _ => {}, pas := [] }

/-- statsConverter.py calculate_stats over parsed rows. -/
def processSC (rows : List BatRow) : BatState (String × String × String × String) :=
  rows.foldl stepSC initBat

/-- playerStatsConverter.py calculate_hitting_stats (batting part) over
parsed rows. -/
def processPSC (rows : List BatRow) : BatState (String × String × String × String × String) :=
  rows.foldl stepPSC initBat

/-- statsConverterRecursive.py calculate_hitting_stats over parsed
rows. -/
def processSCR (rows : List BatRow) : BatState (String × String × String × String × String) :=
  rows.foldl stepSCR initBat

end Batting

namespace Pitching

@[simp] theorem trackTotalPitches_totalPitches (st : PitcherState) :
    (trackTotalPitches st).totalPitches = st.totalPitches + 1 := rfl

@[simp] theorem trackTotalPitches_strikes (st : PitcherState) :
    (trackTotalPitches st).strikes = st.strikes := rfl

@[simp] theorem trackTotalPitches_balls (st : PitcherState) :
    (trackTotalPitches st).balls = st.balls := rfl

@[simp] theorem trackTotalPitches_fouls (st : PitcherState) :
    (trackTotalPitches st).foulsAfter2Strikes = st.foulsAfter2Strikes := rfl

@[simp] theorem trackTotalPitches_fb (st : PitcherState) :
    (trackTotalPitches st).fbVertApprAngles = st.fbVertApprAngles := rfl

@[simp] theorem trackTotalPitches_outs (st : PitcherState) :
    (trackTotalPitches st).outsRecorded = st.outsRecorded := rfl

@[simp] theorem trackTotalPitches_er (st : PitcherState) :
    (trackTotalPitches st).earnedRuns = st.earnedRuns := rfl

@[simp] theorem trackTotalPitches_iz (st : PitcherState) :
    (trackTotalPitches st).izPitches = st.izPitches := rfl

@[simp] theorem trackTotalPitches_oz (st : PitcherState) :
    (trackTotalPitches st).ozPitches = st.ozPitches := rfl

@[simp] theorem trackZone_iz (r : Row) (st : PitcherState) :
    (trackZone r st).izPitches =
      if inStrikeZone r.plateLocSide r.plateLocHeight then st.izPitches + 1
      else st.izPitches := by
  simp only [trackZone]; split_ifs <;> simp_all

@[simp] theorem trackZone_oz (r : Row) (st : PitcherState) :
    (trackZone r st).ozPitches =
      if inStrikeZone r.plateLocSide r.plateLocHeight then st.ozPitches
      else st.ozPitches + 1 := by
  simp only [trackZone]; split_ifs <;> simp_all

@[simp] theorem trackZone_strikes (r : Row) (st : PitcherState) :
    (trackZone r st).strikes = st.strikes := by
  simp only [trackZone]; split_ifs <;> rfl

@[simp] theorem trackZone_balls (r : Row) (st : PitcherState) :
    (trackZone r st).balls = st.balls := by
  simp only [trackZone]; split_ifs <;> rfl

@[simp] theorem trackZone_fouls (r : Row) (st : PitcherState) :
    (trackZone r st).foulsAfter2Strikes = st.foulsAfter2Strikes := by
  simp only [trackZone]; split_ifs <;> rfl

@[simp] theorem trackZone_fb (r : Row) (st : PitcherState) :
    (trackZone r st).fbVertApprAngles = st.fbVertApprAngles := by
  simp only [trackZone]; split_ifs <;> rfl

@[simp] theorem trackZone_outs (r : Row) (st : PitcherState) :
    (trackZone r st).outsRecorded = st.outsRecorded := by
  simp only [trackZone]; split_ifs <;> rfl

@[simp] theorem trackZone_er (r : Row) (st : PitcherState) :
    (trackZone r st).earnedRuns = st.earnedRuns := by
  simp only [trackZone]; split_ifs <;> rfl

@[simp] theorem trackZone_totalPitches (r : Row) (st : PitcherState) :
    (trackZone r st).totalPitches = st.totalPitches := by
  simp only [trackZone]; split_ifs <;> rfl

@[simp] theorem trackPitchTypes_fb (r : Row) (st : PitcherState) :
    (trackPitchTypes r st).fbVertApprAngles =
      st.fbVertApprAngles ++
        (if r.taggedPitchType ∈ fastballTypes then [r.vertApprAngle] else []) := by
  simp only [trackPitchTypes]; split_ifs <;> simp_all

@[simp] theorem trackPitchTypes_strikes (r : Row) (st : PitcherState) :
    (trackPitchTypes r st).strikes = st.strikes := by
  simp only [trackPitchTypes]; split_ifs <;> rfl

@[simp] theorem trackPitchTypes_balls (r : Row) (st : PitcherState) :
    (trackPitchTypes r st).balls = st.balls := by
  simp only [trackPitchTypes]; split_ifs <;> rfl

@[simp] theorem trackPitchTypes_fouls (r : Row) (st : PitcherState) :
    (trackPitchTypes r st).foulsAfter2Strikes = st.foulsAfter2Strikes := by
  simp only [trackPitchTypes]; split_ifs <;> rfl

@[simp] theorem trackPitchTypes_outs (r : Row) (st : PitcherState) :
    (trackPitchTypes r st).outsRecorded = st.outsRecorded := by
  simp only [trackPitchTypes]; split_ifs <;> rfl

@[simp] theorem trackPitchTypes_er (r : Row) (st : PitcherState) :
    (trackPitchTypes r st).earnedRuns = st.earnedRuns := by
  simp only [trackPitchTypes]; split_ifs <;> rfl

@[simp] theorem trackPitchTypes_iz (r : Row) (st : PitcherState) :
    (trackPitchTypes r st).izPitches = st.izPitches := by
  simp only [trackPitchTypes]; split_ifs <;> rfl

@[simp] theorem trackPitchTypes_oz (r : Row) (st : PitcherState) :
    (trackPitchTypes r st).ozPitches = st.ozPitches := by
  simp only [trackPitchTypes]; split_ifs <;> rfl

@[simp] theorem trackPitchTypes_totalPitches (r : Row) (st : PitcherState) :
    (trackPitchTypes r st).totalPitches = st.totalPitches := by
  simp only [trackPitchTypes]; split_ifs <;> rfl

@[simp] theorem trackEarnedRuns_er (r : Row) (st : PitcherState) :
    (trackEarnedRuns r st).earnedRuns =
      st.earnedRuns + (if r.playResult ≠ "Error" then r.runsScored else 0) := by
  simp only [trackEarnedRuns]; split_ifs <;> simp_all

@[simp] theorem trackEarnedRuns_strikes (r : Row) (st : PitcherState) :
    (trackEarnedRuns r st).strikes = st.strikes := by
  simp only [trackEarnedRuns]; split_ifs <;> rfl

@[simp] theorem trackEarnedRuns_balls (r : Row) (st : PitcherState) :
    (trackEarnedRuns r st).balls = st.balls := by
  simp only [trackEarnedRuns]; split_ifs <;> rfl

@[simp] theorem trackEarnedRuns_fouls (r : Row) (st : PitcherState) :
    (trackEarnedRuns r st).foulsAfter2Strikes = st.foulsAfter2Strikes := by
  simp only [trackEarnedRuns]; split_ifs <;> rfl

@[simp] theorem trackEarnedRuns_fb (r : Row) (st : PitcherState) :
    (trackEarnedRuns r st).fbVertApprAngles = st.fbVertApprAngles := by
  simp only [trackEarnedRuns]; split_ifs <;> rfl

@[simp] theorem trackEarnedRuns_outs (r : Row) (st : PitcherState) :
    (trackEarnedRuns r st).outsRecorded = st.outsRecorded := by
  simp only [trackEarnedRuns]; split_ifs <;> rfl

@[simp] theorem trackEarnedRuns_iz (r : Row) (st : PitcherState) :
    (trackEarnedRuns r st).izPitches = st.izPitches := by
  simp only [trackEarnedRuns]; split_ifs <;> rfl

@[simp] theorem trackEarnedRuns_oz (r : Row) (st : PitcherState) :
    (trackEarnedRuns r st).ozPitches = st.ozPitches := by
  simp only [trackEarnedRuns]; split_ifs <;> rfl

@[simp] theorem trackEarnedRuns_totalPitches (r : Row) (st : PitcherState) :
    (trackEarnedRuns r st).totalPitches = st.totalPitches := by
  simp only [trackEarnedRuns]; split_ifs <;> rfl

@[simp] theorem trackOutsOnPlay_outs (r : Row) (st : PitcherState) :
    (trackOutsOnPlay r st).outsRecorded = st.outsRecorded + r.outsOnPlay := rfl

@[simp] theorem trackOutsOnPlay_strikes (r : Row) (st : PitcherState) :
    (trackOutsOnPlay r st).strikes = st.strikes := rfl

@[simp] theorem trackOutsOnPlay_balls (r : Row) (st : PitcherState) :
    (trackOutsOnPlay r st).balls = st.balls := rfl

@[simp] theorem trackOutsOnPlay_fouls (r : Row) (st : PitcherState) :
    (trackOutsOnPlay r st).foulsAfter2Strikes = st.foulsAfter2Strikes := rfl

@[simp] theorem trackOutsOnPlay_fb (r : Row) (st : PitcherState) :
    (trackOutsOnPlay r st).fbVertApprAngles = st.fbVertApprAngles := rfl

@[simp] theorem trackOutsOnPlay_er (r : Row) (st : PitcherState) :
    (trackOutsOnPlay r st).earnedRuns = st.earnedRuns := rfl

@[simp] theorem trackOutsOnPlay_iz (r : Row) (st : PitcherState) :
    (trackOutsOnPlay r st).izPitches = st.izPitches := rfl

@[simp] theorem trackOutsOnPlay_oz (r : Row) (st : PitcherState) :
    (trackOutsOnPlay r st).ozPitches = st.ozPitches := rfl

@[simp] theorem trackOutsOnPlay_totalPitches (r : Row) (st : PitcherState) :
    (trackOutsOnPlay r st).totalPitches = st.totalPitches := rfl

@[simp] theorem trackKorBB_outs (r : Row) (st : PitcherState) :
    (trackKorBB r st).outsRecorded =
      st.outsRecorded + (if r.korbb = "Strikeout" then 1 else 0) := by
  simp only [trackKorBB]; split_ifs <;> simp_all

@[simp] theorem trackKorBB_strikes (r : Row) (st : PitcherState) :
    (trackKorBB r st).strikes = st.strikes := by
  simp only [trackKorBB]; split_ifs <;> rfl

@[simp] theorem trackKorBB_balls (r : Row) (st : PitcherState) :
    (trackKorBB r st).balls = st.balls := by
  simp only [trackKorBB]; split_ifs <;> rfl

@[simp] theorem trackKorBB_fouls (r : Row) (st : PitcherState) :
    (trackKorBB r st).foulsAfter2Strikes = st.foulsAfter2Strikes := by
  simp only [trackKorBB]; split_ifs <;> rfl

@[simp] theorem trackKorBB_fb (r : Row) (st : PitcherState) :
    (trackKorBB r st).fbVertApprAngles = st.fbVertApprAngles := by
  simp only [trackKorBB]; split_ifs <;> rfl

@[simp] theorem trackKorBB_er (r : Row) (st : PitcherState) :
    (trackKorBB r st).earnedRuns = st.earnedRuns := by
  simp only [trackKorBB]; split_ifs <;> rfl

@[simp] theorem trackKorBB_iz (r : Row) (st : PitcherState) :
    (trackKorBB r st).izPitches = st.izPitches := by
  simp only [trackKorBB]; split_ifs <;> rfl

@[simp] theorem trackKorBB_oz (r : Row) (st : PitcherState) :
    (trackKorBB r st).ozPitches = st.ozPitches := by
  simp only [trackKorBB]; split_ifs <;> rfl

@[simp] theorem trackKorBB_totalPitches (r : Row) (st : PitcherState) :
    (trackKorBB r st).totalPitches = st.totalPitches := by
  simp only [trackKorBB]; split_ifs <;> rfl

@[simp] theorem trackTBF_strikes (b : Bool) (st : PitcherState) :
    (trackTBF b st).strikes = st.strikes := by
  cases b <;> rfl

@[simp] theorem trackTBF_balls (b : Bool) (st : PitcherState) :
    (trackTBF b st).balls = st.balls := by
  cases b <;> rfl

@[simp] theorem trackTBF_fouls (b : Bool) (st : PitcherState) :
    (trackTBF b st).foulsAfter2Strikes = st.foulsAfter2Strikes := by
  cases b <;> rfl

@[simp] theorem trackTBF_fb (b : Bool) (st : PitcherState) :
    (trackTBF b st).fbVertApprAngles = st.fbVertApprAngles := by
  cases b <;> rfl

@[simp] theorem trackTBF_outs (b : Bool) (st : PitcherState) :
    (trackTBF b st).outsRecorded = st.outsRecorded := by
  cases b <;> rfl

@[simp] theorem trackTBF_er (b : Bool) (st : PitcherState) :
    (trackTBF b st).earnedRuns = st.earnedRuns := by
  cases b <;> rfl

@[simp] theorem trackTBF_iz (b : Bool) (st : PitcherState) :
    (trackTBF b st).izPitches = st.izPitches := by
  cases b <;> rfl

@[simp] theorem trackTBF_oz (b : Bool) (st : PitcherState) :
    (trackTBF b st).ozPitches = st.ozPitches := by
  cases b <;> rfl

@[simp] theorem trackTBF_totalPitches (b : Bool) (st : PitcherState) :
    (trackTBF b st).totalPitches = st.totalPitches := by
  cases b <;> rfl

@[simp] theorem trackFirstPitch_strikes (r : Row) (st : PitcherState) :
    (trackFirstPitch r st).strikes = st.strikes := by
  simp only [trackFirstPitch]; split_ifs <;> rfl

@[simp] theorem trackFirstPitch_balls (r : Row) (st : PitcherState) :
    (trackFirstPitch r st).balls = st.balls := by
  simp only [trackFirstPitch]; split_ifs <;> rfl

@[simp] theorem trackFirstPitch_fouls (r : Row) (st : PitcherState) :
    (trackFirstPitch r st).foulsAfter2Strikes = st.foulsAfter2Strikes := by
  simp only [trackFirstPitch]; split_ifs <;> rfl

@[simp] theorem trackFirstPitch_fb (r : Row) (st : PitcherState) :
    (trackFirstPitch r st).fbVertApprAngles = st.fbVertApprAngles := by
  simp only [trackFirstPitch]; split_ifs <;> rfl

@[simp] theorem trackFirstPitch_outs (r : Row) (st : PitcherState) :
    (trackFirstPitch r st).outsRecorded = st.outsRecorded := by
  simp only [trackFirstPitch]; split_ifs <;> rfl

@[simp] theorem trackFirstPitch_er (r : Row) (st : PitcherState) :
    (trackFirstPitch r st).earnedRuns = st.earnedRuns := by
  simp only [trackFirstPitch]; split_ifs <;> rfl

@[simp] theorem trackFirstPitch_iz (r : Row) (st : PitcherState) :
    (trackFirstPitch r st).izPitches = st.izPitches := by
  simp only [trackFirstPitch]; split_ifs <;> rfl

@[simp] theorem trackFirstPitch_oz (r : Row) (st : PitcherState) :
    (trackFirstPitch r st).ozPitches = st.ozPitches := by
  simp only [trackFirstPitch]; split_ifs <;> rfl

@[simp] theorem trackFirstPitch_totalPitches (r : Row) (st : PitcherState) :
    (trackFirstPitch r st).totalPitches = st.totalPitches := by
  simp only [trackFirstPitch]; split_ifs <;> rfl

theorem trackStrikesBalls_strikes (r : Row) (st : PitcherState) :
    (trackStrikesBalls r st).strikes =
      if r.pitchCall ∈ ["StrikeCalled", "StrikeSwinging", "InPlay"] then st.strikes + 1
      else if r.pitchCall = "FoulBall" then
        (if r.strikes < 2 ∨ (r.strikes = 2 ∧ r.taggedHitType = "Bunt") then st.strikes + 1
         else st.strikes)
      else st.strikes := by
  simp only [trackStrikesBalls]; split_ifs <;> rfl

theorem trackStrikesBalls_fouls (r : Row) (st : PitcherState) :
    (trackStrikesBalls r st).foulsAfter2Strikes =
      if r.pitchCall ∈ ["StrikeCalled", "StrikeSwinging", "InPlay"] then st.foulsAfter2Strikes
      else if r.pitchCall = "FoulBall" then
        (if r.strikes < 2 ∨ (r.strikes = 2 ∧ r.taggedHitType = "Bunt") then st.foulsAfter2Strikes
         else if r.strikes = 2 ∧ r.taggedHitType ≠ "Bunt" then st.foulsAfter2Strikes + 1
         else st.foulsAfter2Strikes)
      else st.foulsAfter2Strikes := by
  simp only [trackStrikesBalls]; split_ifs <;> rfl

theorem trackStrikesBalls_balls (r : Row) (st : PitcherState) :
    (trackStrikesBalls r st).balls =
      if r.pitchCall ∈ ["StrikeCalled", "StrikeSwinging", "InPlay"] then st.balls
      else if r.pitchCall = "FoulBall" then st.balls
      else if r.pitchCall ∈ ["BallCalled", "BallinDirt", "BallIntentional"] then st.balls + 1
      else st.balls := by
  simp only [trackStrikesBalls]; split_ifs <;> rfl

@[simp] theorem trackStrikesBalls_fb (r : Row) (st : PitcherState) :
    (trackStrikesBalls r st).fbVertApprAngles = st.fbVertApprAngles := by
  simp only [trackStrikesBalls]; split_ifs <;> rfl

@[simp] theorem trackStrikesBalls_outs (r : Row) (st : PitcherState) :
    (trackStrikesBalls r st).outsRecorded = st.outsRecorded := by
  simp only [trackStrikesBalls]; split_ifs <;> rfl

@[simp] theorem trackStrikesBalls_er (r : Row) (st : PitcherState) :
    (trackStrikesBalls r st).earnedRuns = st.earnedRuns := by
  simp only [trackStrikesBalls]; split_ifs <;> rfl

@[simp] theorem trackStrikesBalls_iz (r : Row) (st : PitcherState) :
    (trackStrikesBalls r st).izPitches = st.izPitches := by
  simp only [trackStrikesBalls]; split_ifs <;> rfl

@[simp] theorem trackStrikesBalls_oz (r : Row) (st : PitcherState) :
    (trackStrikesBalls r st).ozPitches = st.ozPitches := by
  simp only [trackStrikesBalls]; split_ifs <;> rfl

@[simp] theorem trackStrikesBalls_totalPitches (r : Row) (st : PitcherState) :
    (trackStrikesBalls r st).totalPitches = st.totalPitches := by
  simp only [trackStrikesBalls]; split_ifs <;> rfl

@[simp] theorem trackHomeRuns_strikes (r : Row) (st : PitcherState) :
    (trackHomeRuns r st).strikes = st.strikes := by
  simp only [trackHomeRuns]; split_ifs <;> rfl

@[simp] theorem trackHomeRuns_balls (r : Row) (st : PitcherState) :
    (trackHomeRuns r st).balls = st.balls := by
  simp only [trackHomeRuns]; split_ifs <;> rfl

@[simp] theorem trackHomeRuns_fouls (r : Row) (st : PitcherState) :
    (trackHomeRuns r st).foulsAfter2Strikes = st.foulsAfter2Strikes := by
  simp only [trackHomeRuns]; split_ifs <;> rfl

@[simp] theorem trackHomeRuns_fb (r : Row) (st : PitcherState) :
    (trackHomeRuns r st).fbVertApprAngles = st.fbVertApprAngles := by
  simp only [trackHomeRuns]; split_ifs <;> rfl

@[simp] theorem trackHomeRuns_outs (r : Row) (st : PitcherState) :
    (trackHomeRuns r st).outsRecorded = st.outsRecorded := by
  simp only [trackHomeRuns]; split_ifs <;> rfl

@[simp] theorem trackHomeRuns_er (r : Row) (st : PitcherState) :
    (trackHomeRuns r st).earnedRuns = st.earnedRuns := by
  simp only [trackHomeRuns]; split_ifs <;> rfl

@[simp] theorem trackHomeRuns_iz (r : Row) (st : PitcherState) :
    (trackHomeRuns r st).izPitches = st.izPitches := by
  simp only [trackHomeRuns]; split_ifs <;> rfl

@[simp] theorem trackHomeRuns_oz (r : Row) (st : PitcherState) :
    (trackHomeRuns r st).ozPitches = st.ozPitches := by
  simp only [trackHomeRuns]; split_ifs <;> rfl

@[simp] theorem trackHomeRuns_totalPitches (r : Row) (st : PitcherState) :
    (trackHomeRuns r st).totalPitches = st.totalPitches := by
  simp only [trackHomeRuns]; split_ifs <;> rfl

@[simp] theorem trackSwings_strikes (r : Row) (st : PitcherState) :
    (trackSwings r st).strikes = st.strikes := by
  simp only [trackSwings]; split_ifs <;> rfl

@[simp] theorem trackSwings_balls (r : Row) (st : PitcherState) :
    (trackSwings r st).balls = st.balls := by
  simp only [trackSwings]; split_ifs <;> rfl

@[simp] theorem trackSwings_fouls (r : Row) (st : PitcherState) :
    (trackSwings r st).foulsAfter2Strikes = st.foulsAfter2Strikes := by
  simp only [trackSwings]; split_ifs <;> rfl

@[simp] theorem trackSwings_fb (r : Row) (st : PitcherState) :
    (trackSwings r st).fbVertApprAngles = st.fbVertApprAngles := by
  simp only [trackSwings]; split_ifs <;> rfl

@[simp] theorem trackSwings_outs (r : Row) (st : PitcherState) :
    (trackSwings r st).outsRecorded = st.outsRecorded := by
  simp only [trackSwings]; split_ifs <;> rfl

@[simp] theorem trackSwings_er (r : Row) (st : PitcherState) :
    (trackSwings r st).earnedRuns = st.earnedRuns := by
  simp only [trackSwings]; split_ifs <;> rfl

@[simp] theorem trackSwings_iz (r : Row) (st : PitcherState) :
    (trackSwings r st).izPitches = st.izPitches := by
  simp only [trackSwings]; split_ifs <;> rfl

@[simp] theorem trackSwings_oz (r : Row) (st : PitcherState) :
    (trackSwings r st).ozPitches = st.ozPitches := by
  simp only [trackSwings]; split_ifs <;> rfl

@[simp] theorem trackSwings_totalPitches (r : Row) (st : PitcherState) :
    (trackSwings r st).totalPitches = st.totalPitches := by
  simp only [trackSwings]; split_ifs <;> rfl

@[simp] theorem trackCalledStrikes_strikes (r : Row) (st : PitcherState) :
    (trackCalledStrikes r st).strikes = st.strikes := by
  simp only [trackCalledStrikes]; split_ifs <;> rfl

@[simp] theorem trackCalledStrikes_balls (r : Row) (st : PitcherState) :
    (trackCalledStrikes r st).balls = st.balls := by
  simp only [trackCalledStrikes]; split_ifs <;> rfl

@[simp] theorem trackCalledStrikes_fouls (r : Row) (st : PitcherState) :
    (trackCalledStrikes r st).foulsAfter2Strikes = st.foulsAfter2Strikes := by
  simp only [trackCalledStrikes]; split_ifs <;> rfl

@[simp] theorem trackCalledStrikes_fb (r : Row) (st : PitcherState) :
    (trackCalledStrikes r st).fbVertApprAngles = st.fbVertApprAngles := by
  simp only [trackCalledStrikes]; split_ifs <;> rfl

@[simp] theorem trackCalledStrikes_outs (r : Row) (st : PitcherState) :
    (trackCalledStrikes r st).outsRecorded = st.outsRecorded := by
  simp only [trackCalledStrikes]; split_ifs <;> rfl

@[simp] theorem trackCalledStrikes_er (r : Row) (st : PitcherState) :
    (trackCalledStrikes r st).earnedRuns = st.earnedRuns := by
  simp only [trackCalledStrikes]; split_ifs <;> rfl

@[simp] theorem trackCalledStrikes_iz (r : Row) (st : PitcherState) :
    (trackCalledStrikes r st).izPitches = st.izPitches := by
  simp only [trackCalledStrikes]; split_ifs <;> rfl

@[simp] theorem trackCalledStrikes_oz (r : Row) (st : PitcherState) :
    (trackCalledStrikes r st).ozPitches = st.ozPitches := by
  simp only [trackCalledStrikes]; split_ifs <;> rfl

@[simp] theorem trackCalledStrikes_totalPitches (r : Row) (st : PitcherState) :
    (trackCalledStrikes r st).totalPitches = st.totalPitches := by
  simp only [trackCalledStrikes]; split_ifs <;> rfl

theorem step_pitchers_ne (s : PassState) (r : Row) (q : String)
    (hq : q ≠ r.pitcher) : (step s r).pitchers q = s.pitchers q := by
  simp only [step]
  exact Function.update_noteq hq _ _

theorem step_fb (s : PassState) (r : Row) (p : String) :
    ((step s r).pitchers p).fbVertApprAngles =
      (s.pitchers p).fbVertApprAngles ++
        (if r.pitcher = p ∧ r.taggedPitchType ∈ fastballTypes then [r.vertApprAngle]
         else []) := by
  by_cases hp : p = r.pitcher
  · subst hp
    simp only [step, Function.update_same]
    simp
  · rw [step_pitchers_ne s r p hp]
    have hp2 : r.pitcher ≠ p := fun h => hp h.symm
    simp [hp2]

theorem step_outs (s : PassState) (r : Row) (p : String) :
    ((step s r).pitchers p).outsRecorded =
      (s.pitchers p).outsRecorded +
        (if r.pitcher = p then
          r.outsOnPlay + (if r.korbb = "Strikeout" then 1 else 0)
         else 0) := by
  by_cases hp : p = r.pitcher
  · subst hp
    simp only [step, Function.update_same]
    simp only [trackCalledStrikes_outs, trackSwings_outs, trackHomeRuns_outs,
      trackStrikesBalls_outs, trackFirstPitch_outs, trackTBF_outs, trackKorBB_outs,
      trackOutsOnPlay_outs, trackEarnedRuns_outs, trackPitchTypes_outs,
      trackZone_outs, trackTotalPitches_outs]
    simp only [if_true]
    ring
  · rw [step_pitchers_ne s r p hp]
    have hp2 : r.pitcher ≠ p := fun h => hp h.symm
    simp [hp2]

theorem step_er (s : PassState) (r : Row) (p : String) :
    ((step s r).pitchers p).earnedRuns =
      (s.pitchers p).earnedRuns +
        (if r.pitcher = p ∧ r.playResult ≠ "Error" then r.runsScored else 0) := by
  by_cases hp : p = r.pitcher
  · subst hp
    simp only [step, Function.update_same]
    simp
  · rw [step_pitchers_ne s r p hp]
    have hp2 : r.pitcher ≠ p := fun h => hp h.symm
    simp [hp2]

theorem step_totalPitches (s : PassState) (r : Row) (p : String) :
    ((step s r).pitchers p).totalPitches =
      (s.pitchers p).totalPitches + (if r.pitcher = p then 1 else 0) := by
  by_cases hp : p = r.pitcher
  · subst hp
    simp only [step, Function.update_same]
    simp
  · rw [step_pitchers_ne s r p hp]
    have hp2 : r.pitcher ≠ p := fun h => hp h.symm
    simp [hp2]

theorem step_iz_add_oz (s : PassState) (r : Row) (p : String) :
    ((step s r).pitchers p).izPitches + ((step s r).pitchers p).ozPitches =
      (s.pitchers p).izPitches + (s.pitchers p).ozPitches +
        (if r.pitcher = p then 1 else 0) := by
  by_cases hp : p = r.pitcher
  · subst hp
    simp only [step, Function.update_same]
    simp only [trackCalledStrikes_iz, trackSwings_iz, trackHomeRuns_iz,
      trackStrikesBalls_iz, trackFirstPitch_iz, trackTBF_iz, trackKorBB_iz,
      trackOutsOnPlay_iz, trackEarnedRuns_iz, trackPitchTypes_iz,
      trackCalledStrikes_oz, trackSwings_oz, trackHomeRuns_oz,
      trackStrikesBalls_oz, trackFirstPitch_oz, trackTBF_oz, trackKorBB_oz,
      trackOutsOnPlay_oz, trackEarnedRuns_oz, trackPitchTypes_oz,
      trackZone_iz, trackZone_oz, trackTotalPitches_iz, trackTotalPitches_oz]
    simp only [if_true]
    split_ifs <;> omega
  · rw [step_pitchers_ne s r p hp]
    have hp2 : r.pitcher ≠ p := fun h => hp h.symm
    simp [hp2]

theorem fbAnglesSpec_cons (r : Row) (t : List Row) (p : String) :
    fbAnglesSpec (r :: t) p =
      (if r.pitcher = p ∧ r.taggedPitchType ∈ fastballTypes then [r.vertApprAngle]
       else []) ++ fbAnglesSpec t p := by
  simp only [fbAnglesSpec, List.filterMap_cons]
  split_ifs <;> simp_all

theorem foldl_fb (rows : List Row) (s : PassState) (p : String) :
    ((rows.foldl step s).pitchers p).fbVertApprAngles =
      (s.pitchers p).fbVertApprAngles ++ fbAnglesSpec rows p := by
  induction rows generalizing s with
  | nil => simp [fbAnglesSpec]
  | cons r t ih =>
    simp only [List.foldl_cons]
    rw [ih, step_fb, fbAnglesSpec_cons, List.append_assoc]

theorem foldl_outs (rows : List Row) (s : PassState) (p : String) :
    ((rows.foldl step s).pitchers p).outsRecorded =
      (s.pitchers p).outsRecorded + outsSpec rows p := by
  induction rows generalizing s with
  | nil => simp [outsSpec]
  | cons r t ih =>
    simp only [List.foldl_cons]
    rw [ih, step_outs]
    simp only [outsSpec, List.map_cons, List.sum_cons]
    ring

theorem foldl_er (rows : List Row) (s : PassState) (p : String) :
    ((rows.foldl step s).pitchers p).earnedRuns =
      (s.pitchers p).earnedRuns + erSpec rows p := by
  induction rows generalizing s with
  | nil => simp [erSpec]
  | cons r t ih =>
    simp only [List.foldl_cons]
    rw [ih, step_er]
    simp only [erSpec, List.map_cons, List.sum_cons]
    ring

theorem foldl_zone (rows : List Row) (s : PassState)
    (h : ∀ p, (s.pitchers p).izPitches + (s.pitchers p).ozPitches =
      (s.pitchers p).totalPitches) (p : String) :
    ((rows.foldl step s).pitchers p).izPitches +
      ((rows.foldl step s).pitchers p).ozPitches =
      ((rows.foldl step s).pitchers p).totalPitches := by
  induction rows generalizing s with
  | nil => exact h p
  | cons r t ih =>
    simp only [List.foldl_cons]
    refine ih (step s r) fun q => ?_
    rw [step_iz_add_oz, step_totalPitches, h q]

end Pitching

namespace Batting

@[simp] theorem trackExit_pa (r : BatRow) (st : BatterStats) :
    (trackExit r st).pa = st.pa := by
  simp only [trackExit]; split_ifs <;> rfl

@[simp] theorem trackExit_rbi (r : BatRow) (st : BatterStats) :
    (trackExit r st).rbi = st.rbi := by
  simp only [trackExit]; split_ifs <;> rfl

@[simp] theorem trackExit_sh (r : BatRow) (st : BatterStats) :
    (trackExit r st).sh = st.sh := by
  simp only [trackExit]; split_ifs <;> rfl

@[simp] theorem trackExit_sf (r : BatRow) (st : BatterStats) :
    (trackExit r st).sf = st.sf := by
  simp only [trackExit]; split_ifs <;> rfl

@[simp] theorem trackHits_pa (r : BatRow) (st : BatterStats) :
    (trackHits r st).pa = st.pa := by
  simp only [trackHits]; split_ifs <;> rfl

@[simp] theorem trackHits_rbi (r : BatRow) (st : BatterStats) :
    (trackHits r st).rbi = st.rbi := by
  simp only [trackHits]; split_ifs <;> rfl

@[simp] theorem trackHits_sh (r : BatRow) (st : BatterStats) :
    (trackHits r st).sh = st.sh := by
  simp only [trackHits]; split_ifs <;> rfl

@[simp] theorem trackHits_sf (r : BatRow) (st : BatterStats) :
    (trackHits r st).sf = st.sf := by
  simp only [trackHits]; split_ifs <;> rfl

theorem trackSacByType_sh (r : BatRow) (st : BatterStats) :
    (trackSacByType r st).sh =
      if r.playResult = "Sacrifice" ∧ r.taggedHitType = "Bunt" then st.sh + 1
      else st.sh := by
  simp only [trackSacByType]; split_ifs <;> simp_all

theorem trackSacByType_sf (r : BatRow) (st : BatterStats) :
    (trackSacByType r st).sf =
      if r.playResult = "Sacrifice" ∧ r.taggedHitType ≠ "Bunt" ∧
          r.taggedHitType ∈ ["FlyBall", "Popup"] then st.sf + 1
      else st.sf := by
  simp only [trackSacByType]; split_ifs <;> simp_all

@[simp] theorem trackSacByType_pa (r : BatRow) (st : BatterStats) :
    (trackSacByType r st).pa = st.pa := by
  simp only [trackSacByType]; split_ifs <;> rfl

@[simp] theorem trackSacByType_rbi (r : BatRow) (st : BatterStats) :
    (trackSacByType r st).rbi = st.rbi := by
  simp only [trackSacByType]; split_ifs <;> rfl

theorem trackSacRecursive_sh (r : BatRow) (st : BatterStats) :
    (trackSacRecursive r st).sh =
      if r.playResult = "Sacrifice" ∧ r.taggedHitType = "Bunt" then st.sh + 1
      else st.sh := by
  simp only [trackSacRecursive]; split_ifs <;> simp_all

theorem trackSacRecursive_sf (r : BatRow) (st : BatterStats) :
    (trackSacRecursive r st).sf =
      if r.playResult = "Sacrifice" ∧ r.taggedHitType ≠ "Bunt" then st.sf + 1
      else st.sf := by
  simp only [trackSacRecursive]; split_ifs <;> simp_all

@[simp] theorem trackSacRecursive_pa (r : BatRow) (st : BatterStats) :
    (trackSacRecursive r st).pa = st.pa := by
  simp only [trackSacRecursive]; split_ifs <;> rfl

@[simp] theorem trackSacRecursive_rbi (r : BatRow) (st : BatterStats) :
    (trackSacRecursive r st).rbi = st.rbi := by
  simp only [trackSacRecursive]; split_ifs <;> rfl

@[simp] theorem trackKorBBBat_pa (r : BatRow) (st : BatterStats) :
    (trackKorBBBat r st).pa = st.pa := by
  simp only [trackKorBBBat]; split_ifs <;> rfl

@[simp] theorem trackKorBBBat_rbi (r : BatRow) (st : BatterStats) :
    (trackKorBBBat r st).rbi = st.rbi := by
  simp only [trackKorBBBat]; split_ifs <;> rfl

@[simp] theorem trackKorBBBat_sh (r : BatRow) (st : BatterStats) :
    (trackKorBBBat r st).sh = st.sh := by
  simp only [trackKorBBBat]; split_ifs <;> rfl

@[simp] theorem trackKorBBBat_sf (r : BatRow) (st : BatterStats) :
    (trackKorBBBat r st).sf = st.sf := by
  simp only [trackKorBBBat]; split_ifs <;> rfl

@[simp] theorem trackHBP_pa (r : BatRow) (st : BatterStats) :
    (trackHBP r st).pa = st.pa := by
  simp only [trackHBP]; split_ifs <;> rfl

@[simp] theorem trackHBP_rbi (r : BatRow) (st : BatterStats) :
    (trackHBP r st).rbi = st.rbi := by
  simp only [trackHBP]; split_ifs <;> rfl

@[simp] theorem trackHBP_sh (r : BatRow) (st : BatterStats) :
    (trackHBP r st).sh = st.sh := by
  simp only [trackHBP]; split_ifs <;> rfl

@[simp] theorem trackHBP_sf (r : BatRow) (st : BatterStats) :
    (trackHBP r st).sf = st.sf := by
  simp only [trackHBP]; split_ifs <;> rfl

@[simp] theorem trackAB_pa (r : BatRow) (st : BatterStats) :
    (trackAB r st).pa = st.pa := by
  simp only [trackAB]; split_ifs <;> rfl

@[simp] theorem trackAB_rbi (r : BatRow) (st : BatterStats) :
    (trackAB r st).rbi = st.rbi := by
  simp only [trackAB]; split_ifs <;> rfl

@[simp] theorem trackAB_sh (r : BatRow) (st : BatterStats) :
    (trackAB r st).sh = st.sh := by
  simp only [trackAB]; split_ifs <;> rfl

@[simp] theorem trackAB_sf (r : BatRow) (st : BatterStats) :
    (trackAB r st).sf = st.sf := by
  simp only [trackAB]; split_ifs <;> rfl

/-- The per-row RBI contribution read off the three sequential guards of
the source. -/
def rbiDelta (r : BatRow) : ℤ :=
  (if r.playResult ∉ ["Error", "FieldersChoice"] ∧
      ¬(r.playResult = "Out" ∧ r.taggedHitType = "GroundBall" ∧ r.outsOnPlay = 2) then
    r.runsScored
   else if r.playResult = "Sacrifice" then r.runsScored
   else 0) +
  (if r.korbb = "Walk" ∧ 0 < r.runsScored then r.runsScored else 0) +
  (if r.pitchCall = "HitByPitch" ∧ 0 < r.runsScored then r.runsScored else 0)

theorem trackRBI_rbi (r : BatRow) (st : BatterStats) :
    (trackRBI r st).rbi = st.rbi + rbiDelta r := by
  simp only [trackRBI, rbiDelta]; split_ifs <;> ring

@[simp] theorem trackRBI_pa (r : BatRow) (st : BatterStats) :
    (trackRBI r st).pa = st.pa := by
  simp only [trackRBI]; split_ifs <;> rfl

@[simp] theorem trackRBI_sh (r : BatRow) (st : BatterStats) :
    (trackRBI r st).sh = st.sh := by
  simp only [trackRBI]; split_ifs <;> rfl

@[simp] theorem trackRBI_sf (r : BatRow) (st : BatterStats) :
    (trackRBI r st).sf = st.sf := by
  simp only [trackRBI]; split_ifs <;> rfl

@[simp] theorem trackGDP_pa (r : BatRow) (st : BatterStats) :
    (trackGDP r st).pa = st.pa := by
  simp only [trackGDP]; split_ifs <;> rfl

@[simp] theorem trackGDP_rbi (r : BatRow) (st : BatterStats) :
    (trackGDP r st).rbi = st.rbi := by
  simp only [trackGDP]; split_ifs <;> rfl

@[simp] theorem trackGDP_sh (r : BatRow) (st : BatterStats) :
    (trackGDP r st).sh = st.sh := by
  simp only [trackGDP]; split_ifs <;> rfl

@[simp] theorem trackGDP_sf (r : BatRow) (st : BatterStats) :
    (trackGDP r st).sf = st.sf := by
  simp only [trackGDP]; split_ifs <;> rfl

theorem stepSC_rbi (s : BatState (String × String × String × String)) (r : BatRow) :
    ((stepSC s r).players r.batter).rbi =
      (s.players r.batter).rbi + rbiDelta r := by
  simp only [stepSC, Function.update_same]
  split_ifs <;> simp [trackRBI_rbi]

theorem stepPSC_rbi (s : BatState (String × String × String × String × String)) (r : BatRow) :
    ((stepPSC s r).players r.batter).rbi =
      (s.players r.batter).rbi + rbiDelta r := by
  simp only [stepPSC, Function.update_same]
  split_ifs <;> simp [trackRBI_rbi]

theorem stepSCR_rbi (s : BatState (String × String × String × String × String)) (r : BatRow) :
    ((stepSCR s r).players r.batter).rbi =
      (s.players r.batter).rbi + rbiDelta r := by
  simp only [stepSCR, Function.update_same]
  split_ifs <;> simp [trackRBI_rbi]

theorem stepSC_sh (s : BatState (String × String × String × String)) (r : BatRow) :
    ((stepSC s r).players r.batter).sh =
      if r.playResult = "Sacrifice" ∧ r.taggedHitType = "Bunt" then
        (s.players r.batter).sh + 1
      else (s.players r.batter).sh := by
  simp only [stepSC, Function.update_same]
  split_ifs with h1 h2 h3 <;> simp_all [trackSacByType_sh]

theorem stepSC_sf (s : BatState (String × String × String × String)) (r : BatRow) :
    ((stepSC s r).players r.batter).sf =
      if r.playResult = "Sacrifice" ∧ r.taggedHitType ≠ "Bunt" ∧
          r.taggedHitType ∈ ["FlyBall", "Popup"] then
        (s.players r.batter).sf + 1
      else (s.players r.batter).sf := by
  simp only [stepSC, Function.update_same]
  split_ifs with h1 h2 h3 <;> simp_all [trackSacByType_sf]

theorem stepSCR_sh (s : BatState (String × String × String × String × String)) (r : BatRow) :
    ((stepSCR s r).players r.batter).sh =
      if r.playResult = "Sacrifice" ∧ r.taggedHitType = "Bunt" then
        (s.players r.batter).sh + 1
      else (s.players r.batter).sh := by
  simp only [stepSCR, Function.update_same]
  split_ifs with h1 h2 h3 <;> simp_all [trackSacRecursive_sh]

theorem stepSCR_sf (s : BatState (String × String × String × String × String)) (r : BatRow) :
    ((stepSCR s r).players r.batter).sf =
      if r.playResult = "Sacrifice" ∧ r.taggedHitType ≠ "Bunt" then
        (s.players r.batter).sf + 1
      else (s.players r.batter).sf := by
  simp only [stepSCR, Function.update_same]
  split_ifs with h1 h2 h3 <;> simp_all [trackSacRecursive_sf]

theorem stepSC_pa (s : BatState (String × String × String × String)) (r : BatRow) :
    ((stepSC s r).players r.batter).pa =
      if keySC r ∈ s.pas then (s.players r.batter).pa
      else (s.players r.batter).pa + 1 := by
  simp only [stepSC, Function.update_same]
  split_ifs <;> simp

theorem stepSC_pas (s : BatState (String × String × String × String)) (r : BatRow) :
    (stepSC s r).pas = if keySC r ∈ s.pas then s.pas else s.pas ++ [keySC r] := by
  simp only [stepSC]

theorem stepPSC_pa (s : BatState (String × String × String × String × String)) (r : BatRow) :
    ((stepPSC s r).players r.batter).pa =
      if keyG r ∈ s.pas then (s.players r.batter).pa
      else (s.players r.batter).pa + 1 := by
  simp only [stepPSC, Function.update_same]
  split_ifs <;> simp

theorem stepPSC_pas (s : BatState (String × String × String × String × String)) (r : BatRow) :
    (stepPSC s r).pas = if keyG r ∈ s.pas then s.pas else s.pas ++ [keyG r] := by
  simp only [stepPSC]

end Batting

namespace Pitching

theorem foldl_applyWL_notMem (w lo : String) (pts : List (String × String))
    (m : String → PitcherState) (q : String) (hq : q ∉ pts.map Prod.fst) :
    (pts.foldl (fun m pt => applyWL w lo m pt) m) q = m q := by
  induction pts generalizing m with
  | nil => rfl
  | cons pt tl ih =>
    rcases pt with ⟨a, b⟩
    simp only [List.map_cons, List.mem_cons, not_or] at hq
    simp only [List.foldl_cons]
    rw [ih _ hq.2]
    simp only [applyWL]
    split_ifs <;> first
      | rfl
      | exact Function.update_noteq hq.1 _ _

theorem foldl_applyWL (w lo : String) (pts : List (String × String))
    (m : String → PitcherState) (q : String)
    (hnd : (pts.map Prod.fst).Nodup) :
    (pts.foldl (fun m pt => applyWL w lo m pt) m) q =
      match assocLookup pts q with
      | none => m q
      | some t =>
        if t = w then { m q with wins := (m q).wins + 1 }
        else if t = lo then { m q with losses := (m q).losses + 1 }
        else m q := by
  induction pts generalizing m with
  | nil => rfl
  | cons pt tl ih =>
    rcases pt with ⟨a, b⟩
    simp only [List.map_cons, List.nodup_cons] at hnd
    by_cases hq : q = a
    · subst hq
      simp only [List.foldl_cons, assocLookup, if_pos rfl]
      rw [foldl_applyWL_notMem w lo tl _ q hnd.1]
      simp only [applyWL]
      split_ifs with h1 h2 <;> simp_all [Function.update_same]
    · simp only [List.foldl_cons, assocLookup, if_neg (Ne.symm hq)]
      rw [ih _ hnd.2]
      have hm : applyWL w lo m (a, b) q = m q := by
        simp only [applyWL]
        split_ifs <;> first
          | rfl
          | exact Function.update_noteq hq _ _
      cases h : assocLookup tl q <;> simp [hm]

theorem foldl_applyWL_some (w lo : String) (pts : List (String × String))
    (m : String → PitcherState) (q t : String)
    (hnd : (pts.map Prod.fst).Nodup) (hpt : assocLookup pts q = some t) :
    (pts.foldl (fun m pt => applyWL w lo m pt) m) q =
      if t = w then { m q with wins := (m q).wins + 1 }
      else if t = lo then { m q with losses := (m q).losses + 1 }
      else m q := by
  rw [foldl_applyWL w lo pts m q hnd, hpt]

end Pitching

namespace Pitching

theorem fbnVAA_of_lt (st : PitcherState) (h : st.fbVertApprAngles.length < 2) :
    fbnVAA st = 0 := by
  simp only [fbnVAA]
  rw [if_neg]
  rw [List.length_map]
  omega

theorem fbnVAA_of_ge (st : PitcherState) (h : 2 ≤ st.fbVertApprAngles.length) :
    fbnVAA st =
      pymedian ((st.fbVertApprAngles.map fun q : ℚ => (q : ℝ)).map
        fun a => (a - pymean (st.fbVertApprAngles.map fun q : ℚ => (q : ℝ))) /
          pystdev (st.fbVertApprAngles.map fun q : ℚ => (q : ℝ))) := by
  simp only [fbnVAA]
  rw [if_pos]
  rw [List.length_map]
  exact h

/-- A fastball row for pitcher P with the given vertical approach angle
and all other fields at their defaults. -/
def fbRowOf (q : ℚ) : Row :=
  { pitcher := "P", taggedPitchType := "Fastball", vertApprAngle := q }

/-- The symmetric five-fastball scenario from the spec: approach angles
-4, -2, 0, 2, 4. -/
def symRows : List Row :=
  [fbRowOf (-4), fbRowOf (-2), fbRowOf 0, fbRowOf 2, fbRowOf 4]

theorem symRows_fb :
    ((processRows symRows).pitchers "P").fbVertApprAngles =
      [(-4 : ℚ), -2, 0, 2, 4] := by
  have h := foldl_fb symRows initState "P"
  rw [processRows, h]
  simp [initState, fbAnglesSpec, symRows, fbRowOf, fastballTypes]

theorem pymean_sym : pymean [(-4 : ℝ), -2, 0, 2, 4] = 0 := by
  norm_num [pymean]

theorem pystdev_sym : pystdev [(-4 : ℝ), -2, 0, 2, 4] = Real.sqrt 10 := by
  simp only [pystdev, pymean_sym]
  norm_num

theorem fbnVAA_symRows : fbnVAA ((processRows symRows).pitchers "P") = 0 := by
  simp only [fbnVAA, symRows_fb]
  have hL : (([(-4 : ℚ), -2, 0, 2, 4]).map fun q : ℚ => (q : ℝ)) = [(-4 : ℝ), -2, 0, 2, 4] := by
    norm_num
  rw [hL]
  rw [if_pos (by norm_num)]
  rw [pymean_sym, pystdev_sym]
  have hmap : (([(-4 : ℝ), -2, 0, 2, 4]).map fun a => (a - 0) / Real.sqrt 10) =
      [(-4 : ℝ) / Real.sqrt 10, -2 / Real.sqrt 10, 0, 2 / Real.sqrt 10,
        4 / Real.sqrt 10] := by
    simp only [List.map_cons, List.map_nil, sub_zero, zero_div]
  rw [hmap]
  have hspos : (0 : ℝ) ≤ Real.sqrt 10 := Real.sqrt_nonneg 10
  have key : ∀ a b : ℝ, a ≤ b → a / Real.sqrt 10 ≤ b / Real.sqrt 10 := fun a b hab =>
    div_le_div_of_nonneg_right hab hspos
  have hsorted : List.Sorted (· ≤ ·)
      [(-4 : ℝ) / Real.sqrt 10, -2 / Real.sqrt 10, 0, 2 / Real.sqrt 10,
        4 / Real.sqrt 10] := by
    refine List.sorted_cons.mpr ⟨?_, List.sorted_cons.mpr ⟨?_,
      List.sorted_cons.mpr ⟨?_, List.sorted_cons.mpr ⟨?_,
        List.sorted_singleton _⟩⟩⟩⟩
    · intro x hx
      simp only [List.mem_cons, List.mem_singleton, List.not_mem_nil, or_false] at hx
      rcases hx with rfl | rfl | rfl | rfl
      · exact key _ _ (by norm_num)
      · exact div_nonpos_of_nonpos_of_nonneg (by norm_num) hspos
      · exact key _ _ (by norm_num)
      · exact key _ _ (by norm_num)
    · intro x hx
      simp only [List.mem_cons, List.mem_singleton, List.not_mem_nil, or_false] at hx
      rcases hx with rfl | rfl | rfl
      · exact div_nonpos_of_nonpos_of_nonneg (by norm_num) hspos
      · exact key _ _ (by norm_num)
      · exact key _ _ (by norm_num)
    · intro x hx
      simp only [List.mem_cons, List.mem_singleton, List.not_mem_nil, or_false] at hx
      rcases hx with rfl | rfl
      · exact div_nonneg (by norm_num) hspos
      · exact div_nonneg (by norm_num) hspos
    · intro x hx
      simp only [List.mem_singleton] at hx
      subst hx
      exact key _ _ (by norm_num)
  simp only [pymedian]
  rw [List.Sorted.insertionSort_eq hsorted]
  norm_num

end Pitching

/-- The two-strike non-bunt foul scenario: one FoulBall pitch thrown with
two strikes and a non-bunt tagged hit type. -/
def foulRow2 : Row :=
  { pitcher := "P", pitchCall := "FoulBall", strikes := 2,
    taggedHitType := "GroundBall" }

/-- Claim C1: in calculate_pitching_stats, a FoulBall with two strikes
and a non-bunt tagged hit type increments FoulsAfter2Strikes and leaves
the Strikes and Balls counters unchanged; a FoulBall with fewer than two
strikes, or with two strikes on a bunt, increments Strikes instead (and
leaves FoulsAfter2Strikes and Balls unchanged); consequently, for the
one-pitch sequence consisting of a two-strike non-bunt foul, Strike
percentage plus Ball percentage is not 100. -/
theorem claim_C1_foul_after_two_strikes :
    (∀ (s : Pitching.PassState) (r : Row), r.pitchCall = "FoulBall" →
      r.strikes = 2 → r.taggedHitType ≠ "Bunt" →
        ((Pitching.step s r).pitchers r.pitcher).foulsAfter2Strikes
            = (s.pitchers r.pitcher).foulsAfter2Strikes + 1 ∧
        ((Pitching.step s r).pitchers r.pitcher).strikes
            = (s.pitchers r.pitcher).strikes ∧
        ((Pitching.step s r).pitchers r.pitcher).balls
            = (s.pitchers r.pitcher).balls) ∧
    (∀ (s : Pitching.PassState) (r : Row), r.pitchCall = "FoulBall" →
      (r.strikes < 2 ∨ (r.strikes = 2 ∧ r.taggedHitType = "Bunt")) →
        ((Pitching.step s r).pitchers r.pitcher).strikes
            = (s.pitchers r.pitcher).strikes + 1 ∧
        ((Pitching.step s r).pitchers r.pitcher).foulsAfter2Strikes
            = (s.pitchers r.pitcher).foulsAfter2Strikes ∧
        ((Pitching.step s r).pitchers r.pitcher).balls
            = (s.pitchers r.pitcher).balls) ∧
    (Pitching.strikePercent ((Pitching.processRows [foulRow2]).pitchers "P") +
      Pitching.ballPercent ((Pitching.processRows [foulRow2]).pitchers "P") ≠ 100) := by
  have hA : ∀ (s : Pitching.PassState) (r : Row), r.pitchCall = "FoulBall" →
      r.strikes = 2 → r.taggedHitType ≠ "Bunt" →
        ((Pitching.step s r).pitchers r.pitcher).foulsAfter2Strikes
            = (s.pitchers r.pitcher).foulsAfter2Strikes + 1 ∧
        ((Pitching.step s r).pitchers r.pitcher).strikes
            = (s.pitchers r.pitcher).strikes ∧
        ((Pitching.step s r).pitchers r.pitcher).balls
            = (s.pitchers r.pitcher).balls := by
    intro s r hc h2 hb
    refine ⟨?_, ?_, ?_⟩ <;>
    · simp only [Pitching.step, Function.update_same,
        Pitching.trackCalledStrikes_fouls, Pitching.trackSwings_fouls,
        Pitching.trackHomeRuns_fouls, Pitching.trackStrikesBalls_fouls,
        Pitching.trackFirstPitch_fouls, Pitching.trackTBF_fouls,
        Pitching.trackKorBB_fouls, Pitching.trackOutsOnPlay_fouls,
        Pitching.trackEarnedRuns_fouls, Pitching.trackPitchTypes_fouls,
        Pitching.trackZone_fouls, Pitching.trackTotalPitches_fouls,
        Pitching.trackCalledStrikes_strikes, Pitching.trackSwings_strikes,
        Pitching.trackHomeRuns_strikes, Pitching.trackStrikesBalls_strikes,
        Pitching.trackFirstPitch_strikes, Pitching.trackTBF_strikes,
        Pitching.trackKorBB_strikes, Pitching.trackOutsOnPlay_strikes,
        Pitching.trackEarnedRuns_strikes, Pitching.trackPitchTypes_strikes,
        Pitching.trackZone_strikes, Pitching.trackTotalPitches_strikes,
        Pitching.trackCalledStrikes_balls, Pitching.trackSwings_balls,
        Pitching.trackHomeRuns_balls, Pitching.trackStrikesBalls_balls,
        Pitching.trackFirstPitch_balls, Pitching.trackTBF_balls,
        Pitching.trackKorBB_balls, Pitching.trackOutsOnPlay_balls,
        Pitching.trackEarnedRuns_balls, Pitching.trackPitchTypes_balls,
        Pitching.trackZone_balls, Pitching.trackTotalPitches_balls]
      simp [hc, h2, hb]
  have hB : ∀ (s : Pitching.PassState) (r : Row), r.pitchCall = "FoulBall" →
      (r.strikes < 2 ∨ (r.strikes = 2 ∧ r.taggedHitType = "Bunt")) →
        ((Pitching.step s r).pitchers r.pitcher).strikes
            = (s.pitchers r.pitcher).strikes + 1 ∧
        ((Pitching.step s r).pitchers r.pitcher).foulsAfter2Strikes
            = (s.pitchers r.pitcher).foulsAfter2Strikes ∧
        ((Pitching.step s r).pitchers r.pitcher).balls
            = (s.pitchers r.pitcher).balls := by
    intro s r hc hlow
    refine ⟨?_, ?_, ?_⟩ <;>
    · simp only [Pitching.step, Function.update_same,
        Pitching.trackCalledStrikes_fouls, Pitching.trackSwings_fouls,
        Pitching.trackHomeRuns_fouls, Pitching.trackStrikesBalls_fouls,
        Pitching.trackFirstPitch_fouls, Pitching.trackTBF_fouls,
        Pitching.trackKorBB_fouls, Pitching.trackOutsOnPlay_fouls,
        Pitching.trackEarnedRuns_fouls, Pitching.trackPitchTypes_fouls,
        Pitching.trackZone_fouls, Pitching.trackTotalPitches_fouls,
        Pitching.trackCalledStrikes_strikes, Pitching.trackSwings_strikes,
        Pitching.trackHomeRuns_strikes, Pitching.trackStrikesBalls_strikes,
        Pitching.trackFirstPitch_strikes, Pitching.trackTBF_strikes,
        Pitching.trackKorBB_strikes, Pitching.trackOutsOnPlay_strikes,
        Pitching.trackEarnedRuns_strikes, Pitching.trackPitchTypes_strikes,
        Pitching.trackZone_strikes, Pitching.trackTotalPitches_strikes,
        Pitching.trackCalledStrikes_balls, Pitching.trackSwings_balls,
        Pitching.trackHomeRuns_balls, Pitching.trackStrikesBalls_balls,
        Pitching.trackFirstPitch_balls, Pitching.trackTBF_balls,
        Pitching.trackKorBB_balls, Pitching.trackOutsOnPlay_balls,
        Pitching.trackEarnedRuns_balls, Pitching.trackPitchTypes_balls,
        Pitching.trackZone_balls, Pitching.trackTotalPitches_balls]
      rcases hlow with hlt | ⟨h2, hbunt⟩
      · simp [hc, hlt]
      · simp [hc, h2, hbunt]
  refine ⟨hA, hB, ?_⟩
  have hs0 := hA Pitching.initState foulRow2 rfl rfl (by decide)
  have ht := Pitching.step_totalPitches Pitching.initState foulRow2 "P"
  have hrows : Pitching.processRows [foulRow2]
      = Pitching.step Pitching.initState foulRow2 := rfl
  rw [hrows]
  have hip : (Pitching.initState.pitchers "P") = {} := rfl
  have hstr : ((Pitching.step Pitching.initState foulRow2).pitchers "P").strikes = 0 := by
    have := hs0.2.1
    simpa [hip] using this
  have hbal : ((Pitching.step Pitching.initState foulRow2).pitchers "P").balls = 0 := by
    have := hs0.2.2
    simpa [hip] using this
  have htp : ((Pitching.step Pitching.initState foulRow2).pitchers "P").totalPitches = 1 := by
    simpa [hip] using ht
  simp [Pitching.strikePercent, Pitching.ballPercent, hstr, hbal, htp]

/-- Witness for claim C1 at a concrete input: the two-strike non-bunt
foul increments FoulsAfter2Strikes from 0 to 1. -/
theorem claim_C1_witness :
    ((Pitching.step Pitching.initState foulRow2).pitchers foulRow2.pitcher).foulsAfter2Strikes
      = (Pitching.initState.pitchers foulRow2.pitcher).foulsAfter2Strikes + 1 :=
  (claim_C1_foul_after_two_strikes.1 Pitching.initState foulRow2 rfl rfl (by decide)).1

/-- Claim C2: assign_wins_losses with a two-team tally [(t1,r1),(t2,r2)]
of distinct teams: outside the AUB_TIG/AUB_PRC pairing, when one team
scored strictly more, every pitcher recorded for the higher-scoring team
gets exactly +1 win (losses unchanged) and every pitcher recorded for
the lower-scoring team gets exactly +1 loss (wins unchanged); a tie, the
AUB_TIG/AUB_PRC pairing, or a tally without exactly two entries changes
nothing. -/
theorem claim_C2_assign_wins_losses
    (pitchers : String → Pitching.PitcherState) (t1 t2 : String) (r1 r2 : ℤ)
    (pts : List (String × String))
    (hnd : (pts.map Prod.fst).Nodup) (hne : t1 ≠ t2) :
    (({t1, t2} : Finset String) ≠ {"AUB_TIG", "AUB_PRC"} → r1 > r2 →
      ∀ p t, Pitching.assocLookup pts p = some t →
        (t = t1 →
          (Pitching.assign_wins_losses pitchers [(t1, r1), (t2, r2)] pts p).wins
              = (pitchers p).wins + 1 ∧
          (Pitching.assign_wins_losses pitchers [(t1, r1), (t2, r2)] pts p).losses
              = (pitchers p).losses) ∧
        (t = t2 →
          (Pitching.assign_wins_losses pitchers [(t1, r1), (t2, r2)] pts p).losses
              = (pitchers p).losses + 1 ∧
          (Pitching.assign_wins_losses pitchers [(t1, r1), (t2, r2)] pts p).wins
              = (pitchers p).wins)) ∧
    (({t1, t2} : Finset String) ≠ {"AUB_TIG", "AUB_PRC"} → r2 > r1 →
      ∀ p t, Pitching.assocLookup pts p = some t →
        (t = t2 →
          (Pitching.assign_wins_losses pitchers [(t1, r1), (t2, r2)] pts p).wins
              = (pitchers p).wins + 1 ∧
          (Pitching.assign_wins_losses pitchers [(t1, r1), (t2, r2)] pts p).losses
              = (pitchers p).losses) ∧
        (t = t1 →
          (Pitching.assign_wins_losses pitchers [(t1, r1), (t2, r2)] pts p).losses
              = (pitchers p).losses + 1 ∧
          (Pitching.assign_wins_losses pitchers [(t1, r1), (t2, r2)] pts p).wins
              = (pitchers p).wins)) ∧
    (r1 = r2 →
      Pitching.assign_wins_losses pitchers [(t1, r1), (t2, r2)] pts = pitchers) ∧
    (({t1, t2} : Finset String) = {"AUB_TIG", "AUB_PRC"} →
      Pitching.assign_wins_losses pitchers [(t1, r1), (t2, r2)] pts = pitchers) ∧
    (∀ tr : List (String × ℤ), tr.length ≠ 2 →
      Pitching.assign_wins_losses pitchers tr pts = pitchers) := by
  have hl1 : Pitching.lookupRuns [(t1, r1), (t2, r2)] t1 = r1 := by
    simp [Pitching.lookupRuns]
  have hl2 : Pitching.lookupRuns [(t1, r1), (t2, r2)] t2 = r2 := by
    simp [Pitching.lookupRuns, hne]
  refine ⟨?_, ?_, ?_, ?_, ?_⟩
  · intro hAUB hgt p t hpt
    have hres : Pitching.assign_wins_losses pitchers [(t1, r1), (t2, r2)] pts
        = pts.foldl (fun m pt => Pitching.applyWL t1 t2 m pt) pitchers := by
      simp only [Pitching.assign_wins_losses]
      rw [hl1, hl2, if_neg hAUB, if_pos hgt]
    rw [hres, Pitching.foldl_applyWL_some t1 t2 pts pitchers p t hnd hpt]
    refine ⟨?_, ?_⟩
    · intro ht
      subst ht
      rw [if_pos rfl]
      exact ⟨rfl, rfl⟩
    · intro ht
      subst ht
      rw [if_neg (Ne.symm hne), if_pos rfl]
      exact ⟨rfl, rfl⟩
  · intro hAUB hgt p t hpt
    have hngt : ¬ (r1 > r2) := by omega
    have hres : Pitching.assign_wins_losses pitchers [(t1, r1), (t2, r2)] pts
        = pts.foldl (fun m pt => Pitching.applyWL t2 t1 m pt) pitchers := by
      simp only [Pitching.assign_wins_losses]
      rw [hl1, hl2, if_neg hAUB, if_neg hngt, if_pos hgt]
    rw [hres, Pitching.foldl_applyWL_some t2 t1 pts pitchers p t hnd hpt]
    refine ⟨?_, ?_⟩
    · intro ht
      subst ht
      rw [if_pos rfl]
      exact ⟨rfl, rfl⟩
    · intro ht
      subst ht
      rw [if_neg hne, if_pos rfl]
      exact ⟨rfl, rfl⟩
  · intro heq
    simp only [Pitching.assign_wins_losses]
    rw [hl1, hl2]
    split_ifs with h1 h2 h3
    · rfl
    · exact absurd h2 (by omega)
    · exact absurd h3 (by omega)
    · rfl
  · intro hAUB
    simp only [Pitching.assign_wins_losses]
    rw [if_pos hAUB]
  · intro tr hlen
    rcases tr with _ | ⟨⟨a, va⟩, _ | ⟨⟨b, vb⟩, _ | ⟨⟨c, vc⟩, tl⟩⟩⟩
    · rfl
    · rfl
    · exact absurd rfl hlen
    · rfl

/-- Witness for claim C2 at a concrete input: a 5-3 game between TeamA
and TeamB gives the TeamA pitcher p1 exactly one win. -/
theorem claim_C2_witness :
    (Pitching.assign_wins_losses (fun _ => {}) [("TeamA", 5), ("TeamB", 3)]
        [("p1", "TeamA"), ("p2", "TeamB")] "p1").wins
      = ((fun _ : String => ({} : Pitching.PitcherState)) "p1").wins + 1 := by
  have h := claim_C2_assign_wins_losses (fun _ => {}) "TeamA" "TeamB" 5 3
      [("p1", "TeamA"), ("p2", "TeamB")] (by decide) (by decide)
  exact ((h.1 (by decide) (by decide) "p1" "TeamA" rfl).1 rfl).1

/-- An adversarial row that is simultaneously a positive-run walk and a
hit-by-pitch pitch call: all three RBI guards fire. -/
def rowC3 : Batting.BatRow :=
  { batter := "B", korbb := "Walk", pitchCall := "HitByPitch", runsScored := 1 }

/-- Counterexample to claim C3 as stated: rowC3 satisfies every
condition the claim lists (walk, one run scored, play result not an
error or fielders choice, not a ground-ball double play), yet the
single-row pass credits the batter 3 RBI, not 2 times runs scored,
because the independent hit-by-pitch guard also fires. -/
theorem claim_C3_counterexample :
    rowC3.korbb = "Walk" ∧ 0 < rowC3.runsScored ∧
    rowC3.playResult ∉ ["Error", "FieldersChoice"] ∧
    ¬(rowC3.playResult = "Out" ∧ rowC3.taggedHitType = "GroundBall" ∧
        rowC3.outsOnPlay = 2) ∧
    ((Batting.processSC [rowC3]).players rowC3.batter).rbi = 3 ∧
    ((3 : ℤ) ≠ 2 * rowC3.runsScored) := by
  have hr : ((Batting.processSC [rowC3]).players rowC3.batter).rbi = 3 := by
    have h1 : Batting.processSC [rowC3] = Batting.stepSC Batting.initBat rowC3 := rfl
    rw [h1, Batting.stepSC_rbi]
    decide
  exact ⟨rfl, by decide, by decide, by decide, hr, by decide⟩

/-- Claim C3 amended: with the additional condition that the pitch call
is not HitByPitch, a positive-run walk row outside the Error,
FieldersChoice and ground-ball double-play cases adds exactly 2 times
RunsScored to the batter RBI (once from the general guard and once from
the walk guard), in both statsConverter.calculate_stats and
statsConverterRecursive.calculate_hitting_stats. -/
theorem claim_C3_amended (r : Batting.BatRow) (hw : r.korbb = "Walk")
    (hpos : 0 < r.runsScored)
    (hpr : r.playResult ∉ ["Error", "FieldersChoice"])
    (hdp : ¬(r.playResult = "Out" ∧ r.taggedHitType = "GroundBall" ∧
        r.outsOnPlay = 2))
    (hhbp : r.pitchCall ≠ "HitByPitch") :
    (∀ s : Batting.BatState (String × String × String × String),
      ((Batting.stepSC s r).players r.batter).rbi
        = (s.players r.batter).rbi + 2 * r.runsScored) ∧
    (∀ s : Batting.BatState (String × String × String × String × String),
      ((Batting.stepSCR s r).players r.batter).rbi
        = (s.players r.batter).rbi + 2 * r.runsScored) := by
  have hdelta : Batting.rbiDelta r = 2 * r.runsScored := by
    simp only [Batting.rbiDelta]
    rw [if_pos ⟨hpr, hdp⟩, if_pos ⟨hw, hpos⟩, if_neg (fun h => hhbp h.1)]
    ring
  exact ⟨fun s => by rw [Batting.stepSC_rbi, hdelta],
    fun s => by rw [Batting.stepSCR_rbi, hdelta]⟩

/-- A plain bases-loaded-walk row: walk with one run scored, ordinary
pitch call. -/
def rowWalk : Batting.BatRow := { batter := "B", korbb := "Walk", runsScored := 1 }

/-- Witness for the amended claim C3 at a concrete input: the walk row
adds exactly 2 RBI. -/
theorem claim_C3_witness :
    ((Batting.stepSC Batting.initBat rowWalk).players rowWalk.batter).rbi
      = ((Batting.initBat :
          Batting.BatState (String × String × String × String)).players
            rowWalk.batter).rbi + 2 * rowWalk.runsScored :=
  (claim_C3_amended rowWalk rfl (by decide) (by decide) (by decide)
    (by decide)).1 Batting.initBat

/-- A sacrifice-fly row with one run scored. -/
def rowC4 : Batting.BatRow :=
  { batter := "B", playResult := "Sacrifice", taggedHitType := "FlyBall",
    runsScored := 1 }

/-- Counterexample to claim C4 as stated: a sacrifice with one run
scored (no walk, no hit-by-pitch) adds exactly 1 RBI, not 2 times runs
scored: the sacrifice add-back sits in an elif branch that is
unreachable because a Sacrifice always satisfies the general RBI
guard. -/
theorem claim_C4_counterexample :
    rowC4.playResult = "Sacrifice" ∧ rowC4.korbb ≠ "Walk" ∧
    rowC4.pitchCall ≠ "HitByPitch" ∧ 0 < rowC4.runsScored ∧
    ((Batting.processSC [rowC4]).players rowC4.batter).rbi = 1 ∧
    ((1 : ℤ) ≠ 2 * rowC4.runsScored) := by
  have hr : ((Batting.processSC [rowC4]).players rowC4.batter).rbi = 1 := by
    have h1 : Batting.processSC [rowC4] = Batting.stepSC Batting.initBat rowC4 := rfl
    rw [h1, Batting.stepSC_rbi]
    decide
  exact ⟨rfl, by decide, by decide, by decide, hr, by decide⟩

/-- Claim C4 amended: a Sacrifice row with KorBB not Walk and PitchCall
not HitByPitch adds exactly RunsScored (once) to the batter RBI: the
general guard fires (a Sacrifice is never an Error, FieldersChoice or
Out), and the explicit sacrifice add-back is the elif arm of that guard
and therefore never fires. This holds in statsConverter.calculate_stats
and in the batting part of playerStatsConverter.calculate_hitting_stats
alike. -/
theorem claim_C4_amended (r : Batting.BatRow) (hsac : r.playResult = "Sacrifice")
    (hw : r.korbb ≠ "Walk") (hhbp : r.pitchCall ≠ "HitByPitch") :
    (∀ s : Batting.BatState (String × String × String × String),
      ((Batting.stepSC s r).players r.batter).rbi
        = (s.players r.batter).rbi + r.runsScored) ∧
    (∀ s : Batting.BatState (String × String × String × String × String),
      ((Batting.stepPSC s r).players r.batter).rbi
        = (s.players r.batter).rbi + r.runsScored) := by
  have hdelta : Batting.rbiDelta r = r.runsScored := by
    simp only [Batting.rbiDelta, hsac]
    rw [if_pos (by refine ⟨by decide, ?_⟩; rintro ⟨h, -⟩; exact absurd h (by decide))]
    rw [if_neg (fun h => hw h.1), if_neg (fun h => hhbp h.1)]
    ring
  exact ⟨fun s => by rw [Batting.stepSC_rbi, hdelta],
    fun s => by rw [Batting.stepPSC_rbi, hdelta]⟩

/-- Witness for the amended claim C4 at a concrete input: the sacrifice
fly adds exactly 1 RBI. -/
theorem claim_C4_witness :
    ((Batting.stepSC Batting.initBat rowC4).players rowC4.batter).rbi
      = ((Batting.initBat :
          Batting.BatState (String × String × String × String)).players
            rowC4.batter).rbi + rowC4.runsScored :=
  (claim_C4_amended rowC4 rfl (by decide) (by decide)).1 Batting.initBat

/-- First of two rows agreeing on batter, inning, half and PA-of-inning
but played in game G1. -/
def rowG1 : Batting.BatRow :=
  { gameID := "G1", batter := "B", inning := "1", inningHalf := "Top",
    paOfInning := "1" }

/-- Same plate-appearance coordinates as rowG1 but in game G2. -/
def rowG2 : Batting.BatRow :=
  { gameID := "G2", batter := "B", inning := "1", inningHalf := "Top",
    paOfInning := "1" }

/-- Counterexample to claim C5 as stated: statsConverter.calculate_stats
builds its plate-appearance key without the game id, so two rows that
agree on batter, inning, half and PA-of-inning but differ in GameID
count as one plate appearance there, not two. -/
theorem claim_C5_counterexample :
    rowG1.batter = rowG2.batter ∧ rowG1.inning = rowG2.inning ∧
    rowG1.inningHalf = rowG2.inningHalf ∧ rowG1.paOfInning = rowG2.paOfInning ∧
    rowG1.gameID ≠ rowG2.gameID ∧
    ((Batting.processSC [rowG1, rowG2]).players rowG1.batter).pa = 1 ∧
    (1 : ℕ) ≠ 2 := by
  refine ⟨rfl, rfl, rfl, rfl, by decide, by decide, by decide⟩

/-- Claim C5 amended: the game-id-inclusive dedup key
(GameID, Batter, Inning, Top/Bottom, PAofInning) is the one used by
playerStatsConverter.calculate_hitting_stats, where the claim holds in
full: two rows sharing the whole key count once and two rows differing
only in GameID count twice. statsConverter.calculate_stats instead keys
on (Batter, Inning, Top/Bottom, PAofInning) without the game id, so any
two rows sharing those four fields count once there, whatever their
GameID values. -/
theorem claim_C5_amended :
    (∀ r1 r2 : Batting.BatRow, r1.batter = r2.batter → r1.inning = r2.inning →
      r1.inningHalf = r2.inningHalf → r1.paOfInning = r2.paOfInning →
      r1.gameID = r2.gameID →
      ((Batting.processPSC [r1, r2]).players r1.batter).pa = 1) ∧
    (∀ r1 r2 : Batting.BatRow, r1.batter = r2.batter → r1.inning = r2.inning →
      r1.inningHalf = r2.inningHalf → r1.paOfInning = r2.paOfInning →
      r1.gameID ≠ r2.gameID →
      ((Batting.processPSC [r1, r2]).players r1.batter).pa = 2) ∧
    (∀ r1 r2 : Batting.BatRow, r1.batter = r2.batter → r1.inning = r2.inning →
      r1.inningHalf = r2.inningHalf → r1.paOfInning = r2.paOfInning →
      ((Batting.processSC [r1, r2]).players r1.batter).pa = 1) := by
  refine ⟨?_, ?_, ?_⟩
  · intro r1 r2 hb hi hh hp hg
    have hkey : Batting.keyG r2 = Batting.keyG r1 := by
      simp [Batting.keyG, hb, hi, hh, hp, hg]
    have e : Batting.processPSC [r1, r2]
        = Batting.stepPSC (Batting.stepPSC Batting.initBat r1) r2 := rfl
    have hpas1 : (Batting.stepPSC Batting.initBat r1).pas = [Batting.keyG r1] := by
      rw [Batting.stepPSC_pas]
      simp [Batting.initBat]
    rw [e, hb, Batting.stepPSC_pa, hpas1, hkey, if_pos (by simp), ← hb,
      Batting.stepPSC_pa]
    simp [Batting.initBat]
  · intro r1 r2 hb hi hh hp hg
    have hkey : Batting.keyG r2 ≠ Batting.keyG r1 := by
      intro h
      exact hg (congrArg Prod.fst h).symm
    have e : Batting.processPSC [r1, r2]
        = Batting.stepPSC (Batting.stepPSC Batting.initBat r1) r2 := rfl
    have hpas1 : (Batting.stepPSC Batting.initBat r1).pas = [Batting.keyG r1] := by
      rw [Batting.stepPSC_pas]
      simp [Batting.initBat]
    rw [e, hb, Batting.stepPSC_pa, hpas1, if_neg (by simp [hkey]), ← hb,
      Batting.stepPSC_pa]
    simp [Batting.initBat]
  · intro r1 r2 hb hi hh hp
    have hkey : Batting.keySC r2 = Batting.keySC r1 := by
      simp [Batting.keySC, hb, hi, hh, hp]
    have e : Batting.processSC [r1, r2]
        = Batting.stepSC (Batting.stepSC Batting.initBat r1) r2 := rfl
    have hpas1 : (Batting.stepSC Batting.initBat r1).pas = [Batting.keySC r1] := by
      rw [Batting.stepSC_pas]
      simp [Batting.initBat]
    rw [e, hb, Batting.stepSC_pa, hpas1, hkey, if_pos (by simp), ← hb,
      Batting.stepSC_pa]
    simp [Batting.initBat]

/-- Witness for the amended claim C5 at a concrete input: under the
game-id-inclusive key of playerStatsConverter, the two rows that differ
only in GameID count as two plate appearances. -/
theorem claim_C5_witness :
    ((Batting.processPSC [rowG1, rowG2]).players rowG1.batter).pa = 2 :=
  claim_C5_amended.2.1 rowG1 rowG2 rfl rfl rfl rfl (by decide)

/-- Claim C6: for every pitcher the recorded fastball vertical approach
angle list is exactly the VertApprAngle of the fastball-family rows of
that pitcher in order; FBnVAA is the median of those angles z-scored
against the own mean and sample standard deviation of that pitcher when
at least two are recorded, is 0 when fewer than two are recorded, and
is 0 on the symmetric angle list -4, -2, 0, 2, 4. -/
theorem claim_C6_fbnvaa :
    (∀ (rows : List Row) (p : String),
      ((Pitching.processRows rows).pitchers p).fbVertApprAngles
        = Pitching.fbAnglesSpec rows p) ∧
    (∀ (rows : List Row) (p : String), 2 ≤ (Pitching.fbAnglesSpec rows p).length →
      Pitching.fbnVAA ((Pitching.processRows rows).pitchers p)
        = Pitching.pymedian
            (((Pitching.fbAnglesSpec rows p).map fun q : ℚ => (q : ℝ)).map
              fun a =>
                (a - Pitching.pymean
                    ((Pitching.fbAnglesSpec rows p).map fun q : ℚ => (q : ℝ))) /
                  Pitching.pystdev
                    ((Pitching.fbAnglesSpec rows p).map fun q : ℚ => (q : ℝ)))) ∧
    (∀ (rows : List Row) (p : String), (Pitching.fbAnglesSpec rows p).length < 2 →
      Pitching.fbnVAA ((Pitching.processRows rows).pitchers p) = 0) ∧
    Pitching.fbnVAA ((Pitching.processRows Pitching.symRows).pitchers "P") = 0 := by
  have hfold : ∀ (rows : List Row) (p : String),
      ((Pitching.processRows rows).pitchers p).fbVertApprAngles
        = Pitching.fbAnglesSpec rows p := by
    intro rows p
    rw [Pitching.processRows, Pitching.foldl_fb]
    simp [Pitching.initState]
  refine ⟨hfold, ?_, ?_, Pitching.fbnVAA_symRows⟩
  · intro rows p h
    have hsteq := hfold rows p
    rw [Pitching.fbnVAA_of_ge _ (by rw [hsteq]; exact h), hsteq]
  · intro rows p h
    exact Pitching.fbnVAA_of_lt _ (by rw [hfold rows p]; exact h)

/-- Witness for claim C6 at a concrete input: with no rows at all a
pitcher has no recorded fastball angles, and FBnVAA is 0. -/
theorem claim_C6_witness :
    (Pitching.fbAnglesSpec [] "P").length < 2 ∧
    Pitching.fbnVAA ((Pitching.processRows []).pitchers "P") = 0 :=
  ⟨by decide, claim_C6_fbnvaa.2.2.1 [] "P" (by decide)⟩

/-- A row with a negative OutsOnPlay value and one non-error run: Python
int() accepts it, and it drives InningsPitched negative. -/
def rowC7 : Row := { pitcher := "P", outsOnPlay := -3, runsScored := 1 }

/-- Counterexample to claim C7 as stated: after the rowC7 sequence,
InningsPitched is -1 (nonzero), yet ERA is 0 rather than
9 times EarnedRuns / InningsPitched = -9, because the source guards the
ERA formula with InningsPitched strictly positive, not merely
nonzero. -/
theorem claim_C7_counterexample :
    Pitching.inningsPitched ((Pitching.processRows [rowC7]).pitchers "P") ≠ 0 ∧
    Pitching.eraOf ((Pitching.processRows [rowC7]).pitchers "P") ≠
      9 * (((Pitching.processRows [rowC7]).pitchers "P").earnedRuns : ℚ) /
        Pitching.inningsPitched ((Pitching.processRows [rowC7]).pitchers "P") := by
  have houts : ((Pitching.processRows [rowC7]).pitchers "P").outsRecorded = -3 := by
    rw [Pitching.processRows, Pitching.foldl_outs]
    decide
  have her : ((Pitching.processRows [rowC7]).pitchers "P").earnedRuns = 1 := by
    rw [Pitching.processRows, Pitching.foldl_er]
    decide
  constructor
  · rw [Pitching.inningsPitched, houts]
    norm_num
  · rw [Pitching.eraOf, Pitching.inningsPitched, houts, her]
    norm_num

/-- Claim C7 amended: OutsRecorded is the per-pitcher sum of OutsOnPlay
plus one out per strikeout, EarnedRuns the per-pitcher sum of non-error
RunsScored, InningsPitched is exactly OutsRecorded / 3, and ERA is
9 times EarnedRuns / InningsPitched when InningsPitched is strictly
positive and 0 otherwise (in particular 0 whenever InningsPitched
is 0). -/
theorem claim_C7_amended (rows : List Row) (p : String) :
    ((Pitching.processRows rows).pitchers p).outsRecorded
        = Pitching.outsSpec rows p ∧
    ((Pitching.processRows rows).pitchers p).earnedRuns
        = Pitching.erSpec rows p ∧
    Pitching.inningsPitched ((Pitching.processRows rows).pitchers p)
        = (((Pitching.processRows rows).pitchers p).outsRecorded : ℚ) / 3 ∧
    (0 < Pitching.inningsPitched ((Pitching.processRows rows).pitchers p) →
      Pitching.eraOf ((Pitching.processRows rows).pitchers p)
        = 9 * (((Pitching.processRows rows).pitchers p).earnedRuns : ℚ) /
            Pitching.inningsPitched ((Pitching.processRows rows).pitchers p)) ∧
    (¬ 0 < Pitching.inningsPitched ((Pitching.processRows rows).pitchers p) →
      Pitching.eraOf ((Pitching.processRows rows).pitchers p) = 0) := by
  refine ⟨?_, ?_, rfl, ?_, ?_⟩
  · rw [Pitching.processRows, Pitching.foldl_outs]
    simp [Pitching.initState]
  · rw [Pitching.processRows, Pitching.foldl_er]
    simp [Pitching.initState]
  · intro h
    rw [Pitching.eraOf, if_pos h]
  · intro h
    rw [Pitching.eraOf, if_neg h]

/-- Witness for the amended claim C7 at a concrete input: with no rows,
InningsPitched is 0 and ERA is 0. -/
theorem claim_C7_witness :
    Pitching.eraOf ((Pitching.processRows []).pitchers "P") = 0 :=
  (claim_C7_amended [] "P").2.2.2.2
    (by norm_num [Pitching.inningsPitched, Pitching.processRows, Pitching.initState])

/-- A ground-ball sacrifice row (neither a bunt nor a fly ball). -/
def rowC8 : Batting.BatRow :=
  { batter := "B", playResult := "Sacrifice", taggedHitType := "GroundBall" }

/-- Counterexample to claim C8 as stated: in
statsConverterRecursive.calculate_hitting_stats a Sacrifice with tagged
hit type GroundBall increments SF (every non-bunt sacrifice does),
whereas the claim says neither SH nor SF changes for such a row. -/
theorem claim_C8_counterexample :
    rowC8.playResult = "Sacrifice" ∧ rowC8.taggedHitType ≠ "Bunt" ∧
    rowC8.taggedHitType ∉ ["FlyBall", "Popup"] ∧
    ((Batting.processSCR [rowC8]).players rowC8.batter).sf = 1 ∧
    (1 : ℕ) ≠ 0 := by
  exact ⟨rfl, by decide, by decide, by decide, by decide⟩

/-- Claim C8 amended: in statsConverter.calculate_stats (and the
identical block of playerStatsConverter) a Sacrifice row increments SH
exactly on a Bunt, SF exactly on a FlyBall or Popup, and neither
otherwise; in statsConverterRecursive.calculate_hitting_stats a
Sacrifice row increments SH on a Bunt and SF on every other tagged hit
type. -/
theorem claim_C8_amended (r : Batting.BatRow)
    (hsac : r.playResult = "Sacrifice") :
    (∀ s : Batting.BatState (String × String × String × String),
      (r.taggedHitType = "Bunt" →
        ((Batting.stepSC s r).players r.batter).sh = (s.players r.batter).sh + 1 ∧
        ((Batting.stepSC s r).players r.batter).sf = (s.players r.batter).sf) ∧
      (r.taggedHitType ∈ ["FlyBall", "Popup"] →
        ((Batting.stepSC s r).players r.batter).sf = (s.players r.batter).sf + 1 ∧
        ((Batting.stepSC s r).players r.batter).sh = (s.players r.batter).sh) ∧
      (r.taggedHitType ≠ "Bunt" → r.taggedHitType ∉ ["FlyBall", "Popup"] →
        ((Batting.stepSC s r).players r.batter).sh = (s.players r.batter).sh ∧
        ((Batting.stepSC s r).players r.batter).sf = (s.players r.batter).sf)) ∧
    (∀ s : Batting.BatState (String × String × String × String × String),
      (r.taggedHitType = "Bunt" →
        ((Batting.stepSCR s r).players r.batter).sh = (s.players r.batter).sh + 1 ∧
        ((Batting.stepSCR s r).players r.batter).sf = (s.players r.batter).sf) ∧
      (r.taggedHitType ≠ "Bunt" →
        ((Batting.stepSCR s r).players r.batter).sf = (s.players r.batter).sf + 1 ∧
        ((Batting.stepSCR s r).players r.batter).sh = (s.players r.batter).sh)) := by
  constructor
  · intro s
    refine ⟨?_, ?_, ?_⟩
    · intro hb
      constructor
      · rw [Batting.stepSC_sh, if_pos ⟨hsac, hb⟩]
      · rw [Batting.stepSC_sf, if_neg (fun h => h.2.1 hb)]
    · intro hmem
      have hnb : r.taggedHitType ≠ "Bunt" := by
        have hmem2 := hmem
        simp only [List.mem_cons, List.mem_singleton, List.not_mem_nil,
          or_false] at hmem2
        rcases hmem2 with h | h <;> rw [h] <;> decide
      constructor
      · rw [Batting.stepSC_sf, if_pos ⟨hsac, hnb, hmem⟩]
      · rw [Batting.stepSC_sh, if_neg (fun h => hnb h.2)]
    · intro hnb hnm
      constructor
      · rw [Batting.stepSC_sh, if_neg (fun h => hnb h.2)]
      · rw [Batting.stepSC_sf, if_neg (fun h => hnm h.2.2)]
  · intro s
    refine ⟨?_, ?_⟩
    · intro hb
      constructor
      · rw [Batting.stepSCR_sh, if_pos ⟨hsac, hb⟩]
      · rw [Batting.stepSCR_sf, if_neg (fun h => h.2 hb)]
    · intro hnb
      constructor
      · rw [Batting.stepSCR_sf, if_pos ⟨hsac, hnb⟩]
      · rw [Batting.stepSCR_sh, if_neg (fun h => hnb h.2)]

/-- Witness for the amended claim C8 at a concrete input: the recursive
variant counts the ground-ball sacrifice as a sacrifice fly. -/
theorem claim_C8_witness :
    ((Batting.stepSCR Batting.initBat rowC8).players rowC8.batter).sf
      = ((Batting.initBat :
          Batting.BatState (String × String × String × String × String)).players
            rowC8.batter).sf + 1 :=
  (((claim_C8_amended rowC8 rfl).2 Batting.initBat).2 (by decide)).1

/-- Whether every int-typed field of the raw row (RunsScored, OutsOnPlay,
PitchofPA, Strikes, Balls) is absent or holds a value Python int()
accepts. -/
def intFieldsOK (raw : RawRow) : Bool :=
  (parseIntField raw.runsScored).isSome && (parseIntField raw.outsOnPlay).isSome &&
  (parseIntField raw.pitchofPA).isSome && (parseIntField raw.strikes).isSome &&
  (parseIntField raw.balls).isSome

theorem parseRow_isSome (raw : RawRow) (h : intFieldsOK raw = true) :
    ∃ r, parseRow raw = some r := by
  simp only [intFieldsOK, Bool.and_eq_true] at h
  obtain ⟨⟨⟨⟨h1, h2⟩, h3⟩, h4⟩, h5⟩ := h
  obtain ⟨n1, e1⟩ := Option.isSome_iff_exists.mp h1
  obtain ⟨n2, e2⟩ := Option.isSome_iff_exists.mp h2
  obtain ⟨n3, e3⟩ := Option.isSome_iff_exists.mp h3
  obtain ⟨n4, e4⟩ := Option.isSome_iff_exists.mp h4
  obtain ⟨n5, e5⟩ := Option.isSome_iff_exists.mp h5
  suffices hs : (parseRow raw).isSome = true from Option.isSome_iff_exists.mp hs
  simp [parseRow, e1, e2, e3, e4, e5]

theorem parseRows_ok (raws : List RawRow)
    (h : ∀ raw ∈ raws, intFieldsOK raw = true) :
    ∃ rows, parseRows raws = some rows := by
  induction raws with
  | nil => exact ⟨[], rfl⟩
  | cons raw tl ih =>
    obtain ⟨r, hr⟩ := parseRow_isSome raw (h raw (List.mem_cons_self _ _))
    obtain ⟨rows, hrows⟩ := ih fun x hx => h x (List.mem_cons_of_mem _ hx)
    exact ⟨r :: rows, by rw [parseRows, hr, hrows]⟩

/-- A raw row whose RunsScored column is present but blank: int()
raises on it. -/
def rawBad : RawRow :=
  { pitcher := "P", batter := "B", runsScored := some Cell.blank }

/-- Counterexample to claim C9 as stated: a present-but-blank RunsScored
cell aborts calculate_pitching_stats with an uncaught ValueError (the
checked pass returns none), because only the float-typed fields go
through safe_float; the int-typed fields use bare int(). -/
theorem claim_C9_counterexample :
    rawBad.runsScored = some Cell.blank ∧
    Pitching.calculate_pitching_stats_checked [rawBad] = none :=
  ⟨rfl, rfl⟩

/-- Claim C9 amended: blank or malformed float-typed cells are coerced
to 0.0 by safe_float and never abort, and calculate_pitching_stats
returns normally on every row sequence whose int-typed fields
(RunsScored, OutsOnPlay, PitchofPA, Strikes, Balls) are each absent or
integer-parsable; a present blank or non-integer value in one of those
five fields aborts the pass. -/
theorem claim_C9_amended :
    (safe_float Cell.blank = 0 ∧ safe_float Cell.malformed = 0 ∧
      ∀ q : ℚ, safe_float (Cell.floatStr q) = q) ∧
    (∀ raws : List RawRow, (∀ raw ∈ raws, intFieldsOK raw = true) →
      ∃ rows, parseRows raws = some rows ∧
        Pitching.calculate_pitching_stats_checked raws
          = some (Pitching.processRows rows)) := by
  refine ⟨⟨rfl, rfl, fun q => rfl⟩, ?_⟩
  intro raws h
  obtain ⟨rows, hrows⟩ := parseRows_ok raws h
  refine ⟨rows, hrows, ?_⟩
  rw [Pitching.calculate_pitching_stats_checked, hrows]
  rfl

/-- A raw row with a blank SpinRate and a malformed PlateLocSide but
sound int-typed fields. -/
def rawFloaty : RawRow :=
  { pitcher := "P", batter := "B", spinRate := some Cell.blank,
    plateLocSide := some Cell.malformed }

/-- Witness for the amended claim C9 at a concrete input: the row with
blank and malformed float cells parses and the checked pass returns
normally. -/
theorem claim_C9_witness :
    safe_float Cell.blank = 0 ∧
    (∃ rows, parseRows [rawFloaty] = some rows ∧
      Pitching.calculate_pitching_stats_checked [rawFloaty]
        = some (Pitching.processRows rows)) :=
  ⟨claim_C9_amended.1.1, claim_C9_amended.2 [rawFloaty] (by decide)⟩

/-- A numeric cell that the float-field conversion coerces to 0.0: an
absent column, a blank value, or a malformed value. -/
def zeroCoerced (c : Option Cell) : Prop :=
  c = none ∨ c = some Cell.blank ∨ c = some Cell.malformed

theorem zeroCoerced_val (c : Option Cell) (h : zeroCoerced c) :
    parseFloatField c = 0 := by
  rcases h with rfl | rfl | rfl <;> rfl

theorem parseRow_plateLoc (raw : RawRow) (r : Row) (h : parseRow raw = some r) :
    r.plateLocSide = parseFloatField raw.plateLocSide ∧
    r.plateLocHeight = parseFloatField raw.plateLocHeight := by
  rcases e1 : parseIntField raw.runsScored with _ | n1
  · simp [parseRow, e1] at h
  rcases e2 : parseIntField raw.outsOnPlay with _ | n2
  · simp [parseRow, e1, e2] at h
  rcases e3 : parseIntField raw.pitchofPA with _ | n3
  · simp [parseRow, e1, e2, e3] at h
  rcases e4 : parseIntField raw.strikes with _ | n4
  · simp [parseRow, e1, e2, e3, e4] at h
  rcases e5 : parseIntField raw.balls with _ | n5
  · simp [parseRow, e1, e2, e3, e4, e5] at h
  simp only [parseRow, e1, e2, e3, e4, e5] at h
  injection h with h2
  subst h2
  exact ⟨rfl, rfl⟩

theorem inStrikeZone_zero : Pitching.inStrikeZone 0 0 = false := by
  simp only [Pitching.inStrikeZone, decide_eq_false_iff_not]
  intro hcon
  have h3 := hcon.2.2.1
  rw [Pitching.zoneHeightMin] at h3
  norm_num at h3

/-- Claim C10: after any row sequence, every pitcher satisfies
IZPitches + OZPitches = TotalPitches (each pitch is classified by the
fixed strike-zone rectangle as exactly one of in-zone or out-of-zone);
and a row whose plate-location cells are absent, blank, or malformed
(all coerced to 0.0) is counted out-of-zone. -/
theorem claim_C10_zone :
    (∀ (rows : List Row) (p : String),
      ((Pitching.processRows rows).pitchers p).izPitches +
        ((Pitching.processRows rows).pitchers p).ozPitches =
        ((Pitching.processRows rows).pitchers p).totalPitches) ∧
    (∀ (raw : RawRow) (r : Row) (s : Pitching.PassState),
      parseRow raw = some r → zeroCoerced raw.plateLocSide →
      zeroCoerced raw.plateLocHeight →
        ((Pitching.step s r).pitchers r.pitcher).ozPitches
            = (s.pitchers r.pitcher).ozPitches + 1 ∧
        ((Pitching.step s r).pitchers r.pitcher).izPitches
            = (s.pitchers r.pitcher).izPitches) := by
  constructor
  · intro rows p
    rw [Pitching.processRows]
    exact Pitching.foldl_zone rows Pitching.initState (fun q => rfl) p
  · intro raw r s hp hs hh
    have hside : r.plateLocSide = 0 := by
      rw [(parseRow_plateLoc raw r hp).1, zeroCoerced_val _ hs]
    have hheight : r.plateLocHeight = 0 := by
      rw [(parseRow_plateLoc raw r hp).2, zeroCoerced_val _ hh]
    have hz : Pitching.inStrikeZone r.plateLocSide r.plateLocHeight = false := by
      rw [hside, hheight, inStrikeZone_zero]
    constructor
    · simp only [Pitching.step, Function.update_same]
      simp [hz]
    · simp only [Pitching.step, Function.update_same]
      simp [hz]

/-- A raw row whose plate-location columns are absent or blank. -/
def rawLoc : RawRow := { pitcher := "P", plateLocHeight := some Cell.blank }

/-- Witness for claim C10 at a concrete input: the pitch with missing
plate-location data is counted out-of-zone. -/
theorem claim_C10_witness :
    ((Pitching.step Pitching.initState { pitcher := "P" }).pitchers
        ({ pitcher := "P" } : Row).pitcher).ozPitches
      = (Pitching.initState.pitchers ({ pitcher := "P" } : Row).pitcher).ozPitches + 1 :=
  (claim_C10_zone.2 rawLoc { pitcher := "P" } Pitching.initState rfl
    (Or.inl rfl) (Or.inr (Or.inl rfl))).1
